import Mathlib

/-!
Verification development for the MangaGenerator repository.

The definitions below are a shallow embedding of the repository's core
components, translated from the TypeScript source:

* the multi-engine AI generation dispatcher, provider registry, character
  consistency cache and mock generator (src/unnamed/part_006);
* the client-side prompt builder and script parser
  (src/client/src/lib/manga-api-server.ts);
* the batch image-generation loop (src/server/routes/image-generation.ts);
* the client data model (src/client/src/types/manga.ts).

Remote HTTP providers are modelled by per-engine oracles: each engine's
network exchange (request construction, transport, response decoding down to
the extracted payload) is a function from the engine id (and, for images, the
outgoing prompt) to an abstract outcome.  JavaScript exceptions are modelled
with `Except`; the two throw sites of the dispatcher are the two constructors
of `DispatchError`, each carrying the exact thrown message.  JavaScript `Map`
is modelled as an insertion-ordered association list.
-/

set_option maxRecDepth 4000

namespace MangaGen

/-- JavaScript `String.prototype.startsWith` (as a reducible character-list
prefix test, so that concrete instances compute inside proofs). -/
def strStartsWith (s pre : String) : Bool :=
  pre.data.isPrefixOf s.data

/-- JavaScript `Array.prototype.join("\n")`. -/
def joinNl : List String → String
  | [] => ""
  | [x] => x
  | x :: y :: xs => x ++ "\n" ++ joinNl (y :: xs)

/-- `true` on the `error` constructor; models "this attempt threw". -/
def isErr : Except ε α → Bool
  | .error _ => true
  | .ok _ => false

/-- `true` on the `ok` constructor. -/
def isOk : Except ε α → Bool
  | .ok _ => true
  | .error _ => false

/-- JavaScript `lastError?.message || "Unknown error"`: `none` (no error seen
yet) and the empty message are both replaced by the fallback text. -/
def errOrUnknown : Option String → String
  | some m => if m == "" then "Unknown error" else m
  | none => "Unknown error"

/-- `Map.get`: the value bound to the first (unique) occurrence of the key
in the insertion-ordered list. -/
def alistGet (m : List (String × α)) (k : String) : Option α :=
  match m with
  | [] => none
  | p :: ps => if p.1 == k then some p.2 else alistGet ps k

/-- `Map.set`: overwrite the (unique) existing binding in place, keeping its
position, or append a new binding at the end. -/
def alistSet (m : List (String × α)) (k : String) (v : α) : List (String × α) :=
  match m with
  | [] => [(k, v)]
  | p :: ps => if p.1 == k then (k, v) :: ps else p :: alistSet ps k v

/-! ### Character trait extraction (part_006, `extractCharacterTraits`)

The four JavaScript regexes are global, case-insensitive alternations of
literal words (two of them followed by a literal `" hair"` / `" eyes"`
suffix).  A global regex scan walks the string left to right, at each
position trying the alternatives in source order, emitting the matched
substring (in its original case) and resuming after it. -/

/-- Case-insensitive test that the pattern is a prefix of the text. -/
def matchesCI : List Char → List Char → Bool
  | [], _ => true
  | _ :: _, [] => false
  | p :: ps, c :: cs => (p.toLower == c.toLower) && matchesCI ps cs

/-- One global-regex scan: `alts` are the alternative patterns (stored as a
nonempty head/tail split, in alternation order); at each position the first
matching alternative is emitted and the scan resumes after the match. -/
def scanMatches (alts : List (Char × List Char)) : List Char → List (List Char)
  | [] => []
  | c :: cs =>
    match alts.find? (fun a => matchesCI (a.1 :: a.2) (c :: cs)) with
    | some a => (c :: cs).take (a.2.length + 1) :: scanMatches alts (cs.drop a.2.length)
    | none => scanMatches alts cs
termination_by l => l.length
decreasing_by
  · simp only [List.length_cons, List.length_drop]
    omega
  · simp only [List.length_cons]
    omega

/-- Split a pattern string into its (nonempty) head/tail form. -/
def toPat (s : String) : List (Char × List Char) :=
  match s.data with
  | [] => []
  | c :: cs => [(c, cs)]

/-- All matches of the case-insensitive alternation `(alt1|alt2|...)suffix`
in `s`, as matched substrings in positional order (JS `String.match` with a
`gi` regex). -/
def regexAllCI (alts : List String) (suffix : String) (s : String) : List String :=
  (scanMatches (((alts.map (fun a => a ++ suffix)).map toPat).flatten) s.data).map
    (fun l => String.mk l)

def hairAlts : List String :=
  ["long", "short", "curly", "straight", "wavy", "black", "brown", "blonde",
   "red", "silver", "white", "blue", "pink", "green"]

def eyeAlts : List String :=
  ["blue", "brown", "green", "hazel", "grey", "amber", "red", "purple"]

def clothingAlts : List String :=
  ["wearing", "dressed in", "uniform", "suit", "dress", "shirt", "jacket",
   "hoodie", "kimono", "armor"]

def buildAlts : List String :=
  ["young", "old", "tall", "short", "slim", "athletic", "muscular",
   "teenager", "adult", "child"]

/-- part_006 `extractCharacterTraits`: hair/eye matches in full, clothing and
build matches limited to two each, two generic descriptors when nothing
matched, joined with `", "`. -/
def extractCharacterTraits (prompt : String) : String :=
  let hairMatch := regexAllCI hairAlts " hair" prompt
  let eyeMatch := regexAllCI eyeAlts " eyes" prompt
  let clothingMatch := regexAllCI clothingAlts "" prompt
  let buildMatch := regexAllCI buildAlts "" prompt
  let traits := hairMatch ++ eyeMatch ++ clothingMatch.take 2 ++ buildMatch.take 2
  let traits :=
    if traits.isEmpty then ["distinctive character design", "memorable appearance"]
    else traits
  String.intercalate ", " traits

/-! ### JSON values, `JSON.stringify` and `JSON.parse`

The script parser and the mock generator use the host runtime's JSON.
`Json` is a standard JSON value tree (numbers are kept as their lexical
token, which is exact and suffices here since every comparison the claims
make is between parses of the same text); `serialize` models
`JSON.stringify`, `parseJson` models `JSON.parse` (returning `none` where
`JSON.parse` throws a `SyntaxError`). -/

inductive Json where
  | null
  | bool (b : Bool)
  | num (tok : String)
  | str (s : String)
  | arr (items : List Json)
  | obj (fields : List (String × Json))

/-- `JSON.stringify` escaping for one character (the characters the
repository's literals contain need only the standard short escapes). -/
def escapeChar (c : Char) : String :=
  if c == '"' then "\\\""
  else if c == '\\' then "\\\\"
  else if c == '\n' then "\\n"
  else if c == '\t' then "\\t"
  else if c == '\r' then "\\r"
  else String.singleton c

def escapeString (s : String) : String :=
  String.join (s.data.map escapeChar)

mutual
/-- `JSON.stringify` (no indentation argument): insertion-ordered object
fields, no whitespace. -/
def serialize : Json → String
  | .null => "null"
  | .bool true => "true"
  | .bool false => "false"
  | .num t => t
  | .str s => "\"" ++ escapeString s ++ "\""
  | .arr items => "[" ++ serializeItems items ++ "]"
  | .obj fields => "\x7b" ++ serializeFields fields ++ "\x7d"

def serializeItems : List Json → String
  | [] => ""
  | [x] => serialize x
  | x :: y :: xs => serialize x ++ "," ++ serializeItems (y :: xs)

def serializeFields : List (String × Json) → String
  | [] => ""
  | [(k, v)] => "\"" ++ escapeString k ++ "\":" ++ serialize v
  | (k, v) :: y :: xs =>
    "\"" ++ escapeString k ++ "\":" ++ serialize v ++ "," ++ serializeFields (y :: xs)
end

/-- JSON whitespace. -/
def isJsonWs (c : Char) : Bool :=
  c == ' ' || c == '\t' || c == '\n' || c == '\r'

def skipWs : List Char → List Char
  | [] => []
  | c :: cs => if isJsonWs c then skipWs cs else c :: cs

/-- Lex the exponent part of a JSON number (if present) onto `acc`. -/
def exponentPart (acc : List Char) (cs : List Char) : Option (List Char × List Char) :=
  match cs with
  | c :: r1 =>
    if c == 'e' || c == 'E' then
      match r1 with
      | s :: t =>
        if s == '+' || s == '-' then
          match t.span Char.isDigit with
          | ([], _) => none
          | (ds, r3) => some (acc ++ c :: s :: ds, r3)
        else
          match r1.span Char.isDigit with
          | ([], _) => none
          | (ds, r3) => some (acc ++ c :: ds, r3)
      | [] => none
    else some (acc, cs)
  | [] => some (acc, cs)

/-- Lex one JSON number token (sign, integer part without leading zeros,
optional fraction, optional exponent). -/
def lexNumber (cs : List Char) : Option (List Char × List Char) :=
  let signed := match cs with
    | '-' :: t => (['-'], t)
    | _ => (([] : List Char), cs)
  match signed.2 with
  | c :: _ =>
    if c.isDigit then
      let (ip, r1) := signed.2.span Char.isDigit
      if ip.head? == some '0' && 1 < ip.length then none
      else
        match r1 with
        | '.' :: r2 =>
          match r2.span Char.isDigit with
          | ([], _) => none
          | (fs, r3) => exponentPart (signed.1 ++ ip ++ '.' :: fs) r3
        | _ => exponentPart (signed.1 ++ ip) r1
    else none
  | [] => none

/-- Value of one hexadecimal digit (by code point: 0-9, a-f, A-F). -/
def hexVal (c : Char) : Option Nat :=
  let n := c.toNat
  if 48 ≤ n && n ≤ 57 then some (n - 48)
  else if 97 ≤ n && n ≤ 102 then some (n - 87)
  else if 65 ≤ n && n ≤ 70 then some (n - 55)
  else none

/-- Lex a JSON string body (the opening quote already consumed), decoding
escapes; returns the decoded characters and the rest after the closing
quote. -/
def lexString : Nat → List Char → Option (List Char × List Char)
  | 0, _ => none
  | _, [] => none
  | fuel + 1, c :: cs =>
    if c == '"' then some ([], cs)
    else if c == '\\' then
      match cs with
      | [] => none
      | e :: cs2 =>
        let dec : Option (Char × List Char) :=
          if e == '"' then some ('"', cs2)
          else if e == '\\' then some ('\\', cs2)
          else if e == '/' then some ('/', cs2)
          else if e == 'b' then some ('\x08', cs2)
          else if e == 'f' then some ('\x0c', cs2)
          else if e == 'n' then some ('\n', cs2)
          else if e == 'r' then some ('\r', cs2)
          else if e == 't' then some ('\t', cs2)
          else if e == 'u' then
            match cs2 with
            | a :: b :: c3 :: d :: rest =>
              match hexVal a, hexVal b, hexVal c3, hexVal d with
              | some va, some vb, some vc, some vd =>
                some (Char.ofNat (va * 4096 + vb * 256 + vc * 16 + vd), rest)
              | _, _, _, _ => none
            | _ => none
          else none
        match dec with
        | some (ch, rest) => (lexString fuel rest).map (fun p => (ch :: p.1, p.2))
        | none => none
    else if c.toNat < 32 then none
    else (lexString fuel cs).map (fun p => (c :: p.1, p.2))

mutual
/-- Parse one JSON value (fuel-indexed; `parseJson` supplies ample fuel). -/
def parseValue : Nat → List Char → Option (Json × List Char)
  | 0, _ => none
  | fuel + 1, cs =>
    match skipWs cs with
    | [] => none
    | c :: cs1 =>
      if c == '\x7b' then
        match skipWs cs1 with
        | '\x7d' :: r => some (.obj [], r)
        | r => parseMembers fuel r []
      else if c == '[' then
        match skipWs cs1 with
        | ']' :: r => some (.arr [], r)
        | r => parseElements fuel r []
      else if c == '"' then
        (lexString (cs1.length + 1) cs1).map (fun p => (.str (String.mk p.1), p.2))
      else if c == 't' then
        match cs1 with
        | 'r' :: 'u' :: 'e' :: r => some (.bool true, r)
        | _ => none
      else if c == 'f' then
        match cs1 with
        | 'a' :: 'l' :: 's' :: 'e' :: r => some (.bool false, r)
        | _ => none
      else if c == 'n' then
        match cs1 with
        | 'u' :: 'l' :: 'l' :: r => some (.null, r)
        | _ => none
      else
        (lexNumber (c :: cs1)).map (fun p => (.num (String.mk p.1), p.2))

/-- Parse object members starting at a (whitespace-skipped) key. -/
def parseMembers : Nat → List Char → List (String × Json) → Option (Json × List Char)
  | 0, _, _ => none
  | fuel + 1, cs, acc =>
    match cs with
    | '"' :: cs1 =>
      match lexString (cs1.length + 1) cs1 with
      | none => none
      | some (k, r1) =>
        match skipWs r1 with
        | ':' :: r2 =>
          match parseValue fuel r2 with
          | none => none
          | some (v, r3) =>
            match skipWs r3 with
            | ',' :: r4 => parseMembers fuel (skipWs r4) (acc ++ [(String.mk k, v)])
            | '\x7d' :: r4 => some (.obj (acc ++ [(String.mk k, v)]), r4)
            | _ => none
        | _ => none
    | _ => none

/-- Parse array elements starting at a value. -/
def parseElements : Nat → List Char → List Json → Option (Json × List Char)
  | 0, _, _ => none
  | fuel + 1, cs, acc =>
    match parseValue fuel cs with
    | none => none
    | some (v, r1) =>
      match skipWs r1 with
      | ',' :: r2 => parseElements fuel r2 (acc ++ [v])
      | ']' :: r2 => some (.arr (acc ++ [v]), r2)
      | _ => none
end

/-- `JSON.parse`: parse one value and require only trailing whitespace. -/
def parseJson (s : String) : Option Json :=
  match parseValue (2 * s.length + 4) s.data with
  | some (j, rest) => if (skipWs rest).isEmpty then some j else none
  | none => none

/-! ### Script parser (manga-api-server.ts, `generateMangaScript` lines 111-124) -/

/-- First index at which `pat` occurs in the text (JS `String.indexOf` /
the regex scan's leftmost match position). -/
def findSub (pat : List Char) : List Char → Option Nat
  | [] => none
  | c :: cs =>
    if pat.isPrefixOf (c :: cs) then some 0
    else (findSub pat cs).map (· + 1)

/-- The JS regex `/```json([\s\S]*?)```/` applied to `raw`: the first
occurrence of the literal tag ```` ```json ```` followed by the lazily
shortest run up to the next ```` ``` ````; returns the captured group. -/
def extractFencedJson (raw : String) : Option String :=
  match findSub "```json".data raw.data with
  | none => none
  | some i =>
    let after := (raw.data.drop i).drop 7
    match findSub "```".data after with
    | none => none
    | some j => some (String.mk (after.take j))

/-- The two exception outcomes of `generateMangaScript`'s parsing block:
the explicitly thrown fixed-message error when no tagged fence is found,
and the propagated `SyntaxError` when the fence's inner content does not
parse (the code calls `JSON.parse(match[1])` inside the catch block, so
that exception escapes uncaught). -/
inductive ScriptParseError where
  | parseFailed (msg : String)
  | innerSyntaxError

/-- The parsing block of `generateMangaScript`: direct `JSON.parse` first;
on failure, salvage from a ```` ```json ```` fenced block; otherwise throw
the fixed diagnostic message. -/
def parseScript (raw : String) : Except ScriptParseError Json :=
  match parseJson raw with
  | some j => .ok j
  | none =>
    match extractFencedJson raw with
    | some inner =>
      match parseJson inner with
      | some j => .ok j
      | none => .error .innerSyntaxError
    | none => .error (.parseFailed "Failed to parse manga script JSON response")

/-! ### Provider registry (part_006, `AI_ENGINES`) -/

/-- Presence of each API-key environment variable (a provider's `available`
flag is exactly the truthiness of its key). -/
structure Env where
  openaiKey : Bool
  ninKey : Bool
  sythKey : Bool
  hfKey : Bool
  perplexityKey : Bool
deriving DecidableEq, Repr

/-- One text-engine registry entry: display name, model list, availability. -/
structure EngineConfig where
  name : String
  models : List String
  available : Bool
deriving DecidableEq, Repr

/-- `Object.entries(AI_ENGINES.text)` in declaration order. -/
def textEngineEntries (env : Env) : List (String × EngineConfig) :=
  [("openai_primary",
    ⟨"OpenAI Primary", ["gpt-4o", "gpt-4o-mini", "gpt-3.5-turbo"], env.openaiKey⟩),
   ("openai_nin", ⟨"OpenAI Nin", ["gpt-4o", "gpt-4o-mini"], env.ninKey⟩),
   ("openai_syth", ⟨"OpenAI Syth", ["gpt-4o", "gpt-4o-mini"], env.sythKey⟩),
   ("perplexity",
    ⟨"Perplexity",
     ["sonar", "sonar-pro", "sonar-reasoning", "llama-3.1-8b-instruct",
      "llama-3.1-70b-instruct"], env.perplexityKey⟩),
   ("huggingface",
    ⟨"HuggingFace", ["microsoft/DialoGPT-medium", "gpt2",
      "facebook/blenderbot-400M-distill"], env.hfKey⟩),
   ("mock", ⟨"Mock Generator", ["simple-manga-generator"], true⟩)]

/-- The registry entry of the always-available mock text generator. -/
def mockTextConfig : EngineConfig :=
  ⟨"Mock Generator", ["simple-manga-generator"], true⟩

/-- The five real (non-mock) text-engine entries, in registry order; the
registry is definitionally these followed by the mock entry. -/
def textFrontEntries (env : Env) : List (String × EngineConfig) :=
  (textEngineEntries env).take 5

def availableTextEngines (env : Env) : List (String × EngineConfig) :=
  (textEngineEntries env).filter (fun p => p.2.available)

/-- `generateText`'s engine reordering: a caller-named engine (when present
among the available ones) first, then the others in registry order; otherwise
OpenAI engines first, then other real engines, then the mock last. -/
def orderTextEngines (engine : Option String) (avail : List (String × EngineConfig)) :
    List (String × EngineConfig) :=
  let defaultOrder :=
    avail.filter (fun p => strStartsWith p.1 "openai") ++
    avail.filter (fun p => !strStartsWith p.1 "openai" && p.1 != "mock") ++
    avail.filter (fun p => p.1 == "mock")
  match engine with
  | none => defaultOrder
  | some e =>
    match avail.find? (fun p => p.1 == e) with
    | some found => found :: avail.filter (fun p => p.1 != e)
    | none => defaultOrder

/-! ### The mock generator's fixed script (part_006, lines 150-179) -/

/-- The object literal `mockScript` the mock engine stringifies. -/
def mockScriptJson : Json :=
  .obj
    [("title", .str "Generated Manga Chapter"),
     ("pages", .arr
       [.obj [("panels", .arr
         [.obj
           [("panelNumber", .num "1"),
            ("description", .str "A young protagonist stands at the edge of a cliff, looking out at a vast landscape"),
            ("dialogue", .str "This is where my adventure begins..."),
            ("mood", .str "hopeful"),
            ("characters", .arr [.str "protagonist"]),
            ("imagePrompt", .str "anime style, young person standing on cliff edge, scenic landscape, hopeful expression, morning light")],
          .obj
           [("panelNumber", .num "2"),
            ("description", .str "Close-up of the protagonist\x27s determined face"),
            ("dialogue", .str "I won\x27t give up!"),
            ("mood", .str "determined"),
            ("characters", .arr [.str "protagonist"]),
            ("imagePrompt", .str "anime style, close-up determined face, young person, bright eyes, manga style")]])]])]

/-- `JSON.stringify(mockScript)`: the content string the mock engine
returns. -/
def mockContent : String := serialize mockScriptJson

/-! ### Text generation dispatcher (part_006, `generateText`)

The network exchange of one non-mock engine attempt (request construction
from system/user/temperature/max_tokens, transport, and response-field
extraction down to the final content string — `data.choices[0].message
.content.trim() || ""` resp. `generated_text || ""`) is modelled by the
oracle `net : String → NetOutcome`, keyed by the engine id.  The prompt
payload parameters flow only into that exchange and are absorbed by the
oracle. -/

/-- Outcome of one provider HTTP exchange: a non-ok response (status and the
decoded `errorData.error?.message || res.statusText` text), or an ok
response together with the extracted content string. -/
inductive NetOutcome where
  | httpFail (status : Nat) (errMsg : String)
  | content (s : String)
deriving DecidableEq, Repr

/-- The normalized success record `{ content, engine, model }`. -/
structure TextResult where
  content : String
  engine : String
  model : String
deriving DecidableEq, Repr

/-- The dispatcher's two throw sites: the zero-available-engines error and
the aggregate all-engines-failed error, each carrying the thrown message. -/
inductive DispatchError where
  | noEngines (msg : String)
  | allFailed (msg : String)
deriving DecidableEq, Repr

/-- The model id an engine attempt actually uses: the caller's model if
given, else the engine's first model; for Perplexity a model outside its
list is replaced by its first model. -/
def textTryModel (engineKey : String) (cfg : EngineConfig) (model : Option String) : String :=
  let tryModel0 := model.getD (cfg.models.headD "")
  if engineKey == "mock" then tryModel0
  else if engineKey == "perplexity" && !(cfg.models.contains tryModel0) then
    cfg.models.headD ""
  else tryModel0

/-- One iteration of `generateText`'s engine loop body (the `try` block):
the mock engine synthesizes its fixed script without a network call; any
other engine performs its exchange, throws the formatted message on a
non-ok response, and throws on empty extracted content. -/
def attemptText (net : String → NetOutcome) (model : Option String)
    (e : String × EngineConfig) : Except String TextResult :=
  if e.1 == "mock" then
    .ok ⟨mockContent, e.1, textTryModel e.1 e.2 model⟩
  else
    match net e.1 with
    | .httpFail status msg =>
      .error (e.2.name ++ " error: " ++ toString status ++ " - " ++ msg)
    | .content c =>
      if 0 < c.length then .ok ⟨c, e.1, textTryModel e.1 e.2 model⟩
      else .error "Empty response from engine"

/-- The dispatcher loop shared by text and image generation: try each
candidate in order, return on first success, remember the last failure, and
throw the aggregate error after exhaustion.  Also returns the list of
attempted candidate ids, in attempt order. -/
def runEngines (key : α → String) (attempt : α → Except String β) (failMsg : String) :
    List α → Option String → Except DispatchError β × List String
  | [], lastError =>
    (.error (.allFailed (failMsg ++ errOrUnknown lastError)), [])
  | e :: rest, _ =>
    match attempt e with
    | .ok r => (.ok r, [key e])
    | .error msg =>
      let next := runEngines key attempt failMsg rest (some msg)
      (next.1, key e :: next.2)

/-- part_006 `generateText` (lines 111-267), returning the result together
with the trace of attempted engine ids. -/
def generateText (env : Env) (engine model : Option String)
    (net : String → NetOutcome) : Except DispatchError TextResult × List String :=
  let avail := availableTextEngines env
  if avail.length == 0 then
    (.error (.noEngines "No text generation engines available"), [])
  else
    runEngines Prod.fst (attemptText net model)
      "All text engines failed. Last error: " (orderTextEngines engine avail) none

/-! ### Character consistency cache (part_006, lines 269-302 and 316-333) -/

/-- One `characterProfiles` entry. -/
structure CharacterProfile where
  description : String
  visualTraits : String
  lastUsed : Nat
deriving DecidableEq, Repr

/-- The character-consistency block at the top of `generateImage`: when a
non-empty character name is supplied and the request is character-focused,
an existing profile enriches the prompt and only has its `lastUsed`
refreshed, while a missing profile is created from traits freshly extracted
from this prompt.  Returns the outgoing (enhanced) prompt and the updated
cache. -/
def consistencyStep (prompt : String) (characterName : Option String)
    (isCharacterFocused : Bool) (now : Nat)
    (profiles : List (String × CharacterProfile)) :
    String × List (String × CharacterProfile) :=
  match characterName with
  | some name =>
    if name != "" && isCharacterFocused then
      match alistGet profiles name with
      | some profile =>
        (profile.description ++ ", " ++ profile.visualTraits ++ ". " ++ prompt ++
           ". Consistent character design, same facial features, same hair, same clothing style as previous appearances.",
         alistSet profiles name ⟨profile.description, profile.visualTraits, now⟩)
      | none =>
        let traits := extractCharacterTraits prompt
        (traits ++ ". " ++ prompt ++ ". Establish consistent character design for future reference.",
         alistSet profiles name ⟨"Character named " ++ name, traits, now⟩)
    else (prompt, profiles)
  | none => (prompt, profiles)

/-! ### Image generation dispatcher (part_006, `generateImage`) -/

/-- One image-engine registry entry (`Object.entries(AI_ENGINES.image)`
order); the HuggingFace model map is `hfImageModels` below. -/
structure ImageEngineConfig where
  name : String
  available : Bool
deriving DecidableEq, Repr

def imageEngineEntries (env : Env) : List (String × ImageEngineConfig) :=
  [("openai_primary", ⟨"OpenAI DALL-E", env.openaiKey⟩),
   ("openai_nin", ⟨"OpenAI Nin DALL-E", env.ninKey⟩),
   ("openai_syth", ⟨"OpenAI Syth DALL-E", env.sythKey⟩),
   ("huggingface", ⟨"HuggingFace", env.hfKey⟩)]

/-- The HuggingFace image model map (`AI_ENGINES.image.huggingface.models`). -/
def hfImageModels : List (String × String) :=
  [("counterfeit-v25", "gsdf/Counterfeit-V2.5"),
   ("waifu-diffusion", "hakurei/waifu-diffusion"),
   ("stable-diffusion-xl", "stabilityai/stable-diffusion-xl-base-1.0"),
   ("anything-v4", "andite/anything-v4.0"),
   ("anime-diffusion", "Ojimi/anime-kawai-diffusion"),
   ("manga-diffusion", "ogkalu/Comic-Diffusion")]

def availableImageEngines (env : Env) : List (String × ImageEngineConfig) :=
  (imageEngineEntries env).filter (fun p => p.2.available)

/-- `generateImage`'s engine reordering: the caller-named engine (when
available) first, else OpenAI engines then the rest. -/
def orderImageEngines (engine : Option String)
    (avail : List (String × ImageEngineConfig)) : List (String × ImageEngineConfig) :=
  let defaultOrder :=
    avail.filter (fun p => strStartsWith p.1 "openai") ++
    avail.filter (fun p => !strStartsWith p.1 "openai")
  match engine with
  | none => defaultOrder
  | some e =>
    match avail.find? (fun p => p.1 == e) with
    | some found => found :: avail.filter (fun p => p.1 != e)
    | none => defaultOrder

/-- Outcome of one image-provider HTTP exchange: a non-ok response, an ok
response with the image payload (HuggingFace: base64 of the body bytes;
OpenAI: `data.data[0].b64_json`), or an ok OpenAI response with the
`b64_json` field missing. -/
inductive ImgNet where
  | httpFail (status : Nat) (errMsg : String)
  | okBody (b64 : String)
  | okNoImage
deriving DecidableEq, Repr

/-- The normalized success record `{ imageUrl, engine, model }`. -/
structure ImageResult where
  imageUrl : String
  engine : String
  model : String
deriving DecidableEq, Repr

/-- The HuggingFace model the dispatcher selects:
`hfModels[model || 'counterfeit-v25'] || hfModels['counterfeit-v25']`. -/
def hfSelectedModel (model : Option String) : String :=
  (alistGet hfImageModels (model.getD "counterfeit-v25")).getD
    ((alistGet hfImageModels "counterfeit-v25").getD "")

/-- One iteration of `generateImage`'s engine loop body: HuggingFace maps a
503 response to the warming-up message and any other failure to a short
status message, while OpenAI engines (model hard-wired to dall-e-3) format
the status text and throw when no image comes back.  A non-empty data URI
always passes the final `if (imageUrl)` check.  The oracle receives the
outgoing (enhanced) prompt, which every request body carries. -/
def attemptImage (net : String → String → ImgNet) (model : Option String)
    (enhancedPrompt : String) (e : String × ImageEngineConfig) :
    Except String ImageResult :=
  if e.1 == "huggingface" then
    match net e.1 enhancedPrompt with
    | .httpFail status _ =>
      if status == 503 then
        .error "Model is warming up. Please try again in 30-60 seconds."
      else .error ("HuggingFace error: " ++ toString status)
    | .okBody b64 =>
      .ok ⟨"data:image/png;base64," ++ b64, e.1, hfSelectedModel model⟩
    | .okNoImage => .ok ⟨"data:image/png;base64,", e.1, hfSelectedModel model⟩
  else
    match net e.1 enhancedPrompt with
    | .httpFail status msg =>
      .error (e.2.name ++ " error: " ++ toString status ++ " - " ++ msg)
    | .okBody b64 => .ok ⟨"data:image/png;base64," ++ b64, e.1, "dall-e-3"⟩
    | .okNoImage => .error "No image returned from OpenAI."

/-- The caller-visible parameters of `generateImage` (size flows only into
the request body, i.e. the oracle). -/
structure ImageParams where
  prompt : String
  engine : Option String
  model : Option String
  characterName : Option String
  isCharacterFocused : Bool
deriving DecidableEq, Repr

/-- Everything one `generateImage` call produces: the result (or thrown
error), the attempted engine ids in order, the outgoing enhanced prompt
carried by every request, and the character-profile cache after the call. -/
structure ImageRun where
  result : Except DispatchError ImageResult
  attempted : List String
  sentPrompt : String
  profiles : List (String × CharacterProfile)
deriving Repr

/-- part_006 `generateImage` (lines 305-436): consistency-cache step first,
then the availability check, then the failover loop. -/
def generateImage (env : Env) (params : ImageParams) (net : String → String → ImgNet)
    (now : Nat) (profiles : List (String × CharacterProfile)) : ImageRun :=
  let step := consistencyStep params.prompt params.characterName
    params.isCharacterFocused now profiles
  let avail := availableImageEngines env
  if avail.length == 0 then
    ⟨.error (.noEngines "No image generation engines available"), [], step.1, step.2⟩
  else
    let run := runEngines Prod.fst (attemptImage net params.model step.1)
      "All image engines failed. Last error: " (orderImageEngines params.engine avail) none
    ⟨run.1, run.2, step.1, step.2⟩

/-! ### Client data model and prompt builder (manga-api-server.ts, manga.ts) -/

structure MangaCharacter where
  name : String
  role : String
  age : String
  appearance : String
  costume : String
  poses : List String
  expressions : List String
deriving DecidableEq, Repr

structure StyleBible where
  setting : String
  themes : List String
  visual_motifs : List String
  characters : List MangaCharacter
deriving DecidableEq, Repr

structure Panel where
  id : String
  description : String
  dialogue : List String
  sfx : List String
  notes : String
deriving DecidableEq, Repr

def IMAGE_STYLE_PRIMER : String :=
  "Black-and-white Japanese manga panel. Dynamic composition. Clean inks, bold shadows, crosshatching, screentones, motion/speed lines. High contrast. Leave clear negative space for speech bubbles if dialogue exists. No color."

/-- One character's line in the flattened roster. -/
def charEntry (c : MangaCharacter) : String :=
  c.name ++ ": " ++ c.appearance ++ "; costume: " ++ c.costume ++
    "; typical poses: " ++ String.intercalate ", " c.poses ++
    "; expressions: " ++ String.intercalate ", " c.expressions

/-- manga-api-server.ts `buildImagePrompt` (lines 52-68): style primer,
panel line, sfx cues (`"none"` when empty), character roster (fallback
directive when empty), camera directive, and the dialogue-aware
negative-space hint, joined with newlines. -/
def buildImagePrompt (panel : Panel) (styleBible : StyleBible) : String :=
  let charList := String.intercalate " | " (styleBible.characters.map charEntry)
  let dialogueHint :=
    if panel.dialogue.length != 0 then
      "Leave negative space along " ++
        (if 1 < panel.dialogue.length then "top and side" else "top") ++
        " for speech bubbles."
    else "Leave generous negative space for possible lettering."
  joinNl
    [IMAGE_STYLE_PRIMER,
     "Panel " ++ panel.id ++ ": " ++ panel.description,
     "SFX cues: " ++ (if panel.sfx.isEmpty then "none"
       else String.intercalate ", " panel.sfx) ++ ".",
     "Characters: " ++ (if charList == "" then "Follow style bible." else charList),
     "Camera/composition: Prioritize clarity of action; dynamic angle; readable silhouettes.",
     dialogueHint]

/-! ### Expected script JSON shape (client types, manga.ts)

Structural predicates transcribing the `MangaScript` interface tree the
script pipeline produces and the client consumes. -/

def isStr : Json → Bool
  | .str _ => true
  | _ => false

def isNum : Json → Bool
  | .num _ => true
  | _ => false

def isArrOf (p : Json → Bool) : Json → Bool
  | .arr l => l.all p
  | _ => false

def getField (j : Json) (k : String) : Option Json :=
  match j with
  | .obj fs => (fs.find? (fun f => f.1 == k)).map (·.2)
  | _ => none

def fieldIs (j : Json) (k : String) (p : Json → Bool) : Bool :=
  match getField j k with
  | some v => p v
  | none => false

def characterShape (j : Json) : Bool :=
  fieldIs j "name" isStr && fieldIs j "role" isStr && fieldIs j "age" isStr &&
  fieldIs j "appearance" isStr && fieldIs j "costume" isStr &&
  fieldIs j "poses" (isArrOf isStr) && fieldIs j "expressions" (isArrOf isStr)

def styleBibleShape (j : Json) : Bool :=
  fieldIs j "setting" isStr && fieldIs j "themes" (isArrOf isStr) &&
  fieldIs j "visual_motifs" (isArrOf isStr) &&
  fieldIs j "characters" (isArrOf characterShape)

def panelShape (j : Json) : Bool :=
  fieldIs j "id" isStr && fieldIs j "description" isStr &&
  fieldIs j "dialogue" (isArrOf isStr) && fieldIs j "sfx" (isArrOf isStr) &&
  fieldIs j "notes" isStr

def pageShape (j : Json) : Bool :=
  fieldIs j "number" isNum && fieldIs j "panels" (isArrOf panelShape)

def mangaScriptShape (j : Json) : Bool :=
  fieldIs j "title" isStr && fieldIs j "style_bible" styleBibleShape &&
  fieldIs j "pages" (isArrOf pageShape)

/-! ### Batch image generation (image-generation.ts, lines 182-227) -/

/-- One entry of the batch route's `results` array: the prompt together with
either its image URL or its per-prompt error message. -/
structure BatchEntry where
  prompt : String
  imageUrl : Option String
  error : Option String
deriving DecidableEq, Repr

/-- The per-prompt body of the batch loop: one `generateImage` call whose
failure is caught and recorded in the entry instead of propagating.
`generateOne` stands for the route's single-image `generateImage`
(engine-selection plus provider call), whose network behavior the claims
leave abstract. -/
def batchEntryFor (generateOne : String → Except String String) (p : String) : BatchEntry :=
  match generateOne p with
  | .ok url => ⟨p, some url, none⟩
  | .error e => ⟨p, none, some e⟩

/-- The batch loop's groups: slices of `batchSize` consecutive prompts, in
order.  The fuel argument only bounds the recursion; `prompts.length` steps
always suffice for a positive `batchSize` (for `batchSize = 0` the
JavaScript loop does not terminate). -/
def batchGroupsAux (generateOne : String → Except String String) (batchSize : Nat) :
    Nat → List String → List (List BatchEntry)
  | 0, _ => []
  | _, [] => []
  | fuel + 1, ps =>
    (ps.take batchSize).map (batchEntryFor generateOne) ::
      batchGroupsAux generateOne batchSize fuel (ps.drop batchSize)

def batchGroups (generateOne : String → Except String String) (prompts : List String)
    (batchSize : Nat) : List (List BatchEntry) :=
  batchGroupsAux generateOne batchSize prompts.length prompts

/-- The `/api/image/generate-batch` route's `results` array: the groups'
entries concatenated in order. -/
def generateBatch (generateOne : String → Except String String) (prompts : List String)
    (batchSize : Nat) : List BatchEntry :=
  (batchGroups generateOne prompts batchSize).flatten

/-! ## Lemmas about the dispatcher loop -/

theorem isErr_exists {x : Except ε α} (h : isErr x = true) : ∃ m, x = .error m := by
  cases x with
  | error m => exact ⟨m, rfl⟩
  | ok _ => simp [isErr] at h

theorem runEngines_append_ok (key : α → String) (attempt : α → Except String β)
    (failMsg : String) (pre : List α) (e : α) (post : List α) (r : β)
    (hpre : ∀ c ∈ pre, isErr (attempt c) = true) (he : attempt e = .ok r) :
    ∀ lastErr, runEngines key attempt failMsg (pre ++ e :: post) lastErr =
      (.ok r, pre.map key ++ [key e]) := by
  induction pre with
  | nil => intro lastErr; simp [runEngines, he]
  | cons c cs ih =>
    intro lastErr
    obtain ⟨m, hm⟩ := isErr_exists (hpre c (by simp))
    simp only [List.cons_append, runEngines, hm, List.append_eq]
    rw [ih (fun x hx => hpre x (by simp [hx]))]
    simp

theorem runEngines_all_fail (key : α → String) (attempt : α → Except String β)
    (failMsg : String) (init : List α) (last : α) (lastMsg : String)
    (hinit : ∀ c ∈ init, isErr (attempt c) = true)
    (hlast : attempt last = .error lastMsg) (hne : lastMsg ≠ "") :
    ∀ lastErr, runEngines key attempt failMsg (init ++ [last]) lastErr =
      (.error (.allFailed (failMsg ++ lastMsg)), (init ++ [last]).map key) := by
  induction init with
  | nil =>
    intro lastErr
    simp [runEngines, hlast, errOrUnknown, beq_iff_eq, hne]
  | cons c cs ih =>
    intro lastErr
    obtain ⟨m, hm⟩ := isErr_exists (hinit c (by simp))
    simp only [List.cons_append, runEngines, hm, List.append_eq]
    rw [ih (fun x hx => hinit x (by simp [hx]))]
    simp

theorem runEngines_ok_of_mem (key : α → String) (attempt : α → Except String β)
    (failMsg : String) : ∀ (L : List α) (e : α), e ∈ L → isOk (attempt e) = true →
    ∀ lastErr, isOk (runEngines key attempt failMsg L lastErr).1 = true := by
  intro L
  induction L with
  | nil => intro e he; cases he
  | cons c cs ih =>
    intro e he hok lastErr
    rcases List.mem_cons.mp he with rfl | hmem
    · cases hx : attempt e with
      | ok r => simp [runEngines, hx, isOk]
      | error m => rw [hx] at hok; simp [isOk] at hok
    · cases hx : attempt c with
      | ok r => simp [runEngines, hx, isOk]
      | error m =>
        simp only [runEngines, hx]
        exact ih e hmem hok (some m)

theorem runEngines_ne_noEngines (key : α → String) (attempt : α → Except String β)
    (failMsg : String) : ∀ (L : List α) (lastErr) (m : String),
    (runEngines key attempt failMsg L lastErr).1 ≠ .error (.noEngines m) := by
  intro L
  induction L with
  | nil => intro lastErr m h; simp [runEngines] at h
  | cons c cs ih =>
    intro lastErr m h
    simp only [runEngines] at h
    cases hx : attempt c with
    | ok r => rw [hx] at h; simp at h
    | error msg =>
      rw [hx] at h
      exact ih (some msg) m h

/-! ## Lemmas about the association-list `Map` model -/

theorem alistGet_cons_self {p : String × α} {ps : List (String × α)} {k : String}
    (h : (p.1 == k) = true) : alistGet (p :: ps) k = some p.2 := by
  rw [alistGet]
  simp [h]

theorem alistGet_cons_other {p : String × α} {ps : List (String × α)} {k : String}
    (h : (p.1 == k) = false) : alistGet (p :: ps) k = alistGet ps k := by
  rw [alistGet]
  simp [h]

theorem alistSet_cons_hit {p : String × α} {ps : List (String × α)} {k : String} {v : α}
    (h : (p.1 == k) = true) : alistSet (p :: ps) k v = (k, v) :: ps := by
  rw [alistSet]
  simp [h]

theorem alistSet_cons_miss {p : String × α} {ps : List (String × α)} {k : String} {v : α}
    (h : (p.1 == k) = false) : alistSet (p :: ps) k v = p :: alistSet ps k v := by
  rw [alistSet]
  simp [h]

theorem alistGet_alistSet_self (m : List (String × α)) (k : String) (v : α) :
    alistGet (alistSet m k v) k = some v := by
  induction m with
  | nil => rw [alistSet, alistGet_cons_self (by simp)]

  | cons p ps ih =>
    by_cases h : p.1 = k
    · rw [alistSet_cons_hit (beq_iff_eq.mpr h), alistGet_cons_self (by simp)]
    · have hb : (p.1 == k) = false := by simp [h]
      rw [alistSet_cons_miss hb, alistGet_cons_other hb]
      exact ih

theorem alistGet_alistSet_other (m : List (String × α)) (k k' : String) (v : α)
    (h : k' ≠ k) : alistGet (alistSet m k v) k' = alistGet m k' := by
  have hkk : (k == k') = false := beq_eq_false_iff_ne.mpr (Ne.symm h)
  induction m with
  | nil => rw [alistSet, alistGet_cons_other hkk, alistGet]
  | cons p ps ih =>
    by_cases hp : p.1 = k
    · have hb : (p.1 == k) = true := beq_iff_eq.mpr hp
      have hpk' : (p.1 == k') = false := by rw [show p.1 = k from hp]; exact hkk
      rw [alistSet_cons_hit hb, alistGet_cons_other hkk, alistGet_cons_other hpk']
    · have hb : (p.1 == k) = false := by simp [hp]
      by_cases hq : p.1 = k'
      · have hbq : (p.1 == k') = true := beq_iff_eq.mpr hq
        rw [alistSet_cons_miss hb, alistGet_cons_self hbq, alistGet_cons_self hbq]
      · have hbq : (p.1 == k') = false := by simp [hq]
        rw [alistSet_cons_miss hb, alistGet_cons_other hbq, alistGet_cons_other hbq]
        exact ih

theorem isSome_alistGet_alistSet (m : List (String × α)) (k : String) (v : α) :
    (alistGet (alistSet m k v) k).isSome = true := by
  simp [alistGet_alistSet_self]

/-! ## Lemmas about `find?` and the ordering policies -/

theorem find?_split {p : α → Bool} : ∀ {l : List α} {a : α}, l.find? p = some a →
    ∃ l1 l2, l = l1 ++ a :: l2 ∧ p a = true ∧ ∀ x ∈ l1, p x = false := by
  intro l
  induction l with
  | nil => intro a h; simp at h
  | cons c cs ih =>
    intro a h
    by_cases hc : p c = true
    · rw [List.find?_cons_of_pos _ hc] at h
      obtain rfl : c = a := by injection h
      exact ⟨[], cs, by simp, hc, by simp⟩
    · rw [List.find?_cons_of_neg _ (by simpa using hc)] at h
      obtain ⟨l1, l2, rfl, hpa, hl1⟩ := ih h
      refine ⟨c :: l1, l2, rfl, hpa, ?_⟩
      intro x hx
      rcases List.mem_cons.mp hx with rfl | hx
      · simpa using hc
      · exact hl1 x hx

theorem find?_append_of_none {p : α → Bool} {l1 l2 : List α}
    (h : l1.find? p = none) : (l1 ++ l2).find? p = l2.find? p := by
  simp [List.find?_append, h]

/-! ## Registry and ordering-policy lemmas -/

theorem availTextKeys_nodup (env : Env) :
    ((availableTextEngines env).map Prod.fst).Nodup := by
  have hsub : List.Sublist ((availableTextEngines env).map Prod.fst)
      ((textEngineEntries env).map Prod.fst) :=
    (List.filter_sublist (textEngineEntries env)).map Prod.fst
  have hbig : ((textEngineEntries env).map Prod.fst).Nodup := by
    have : (textEngineEntries env).map Prod.fst =
        ["openai_primary", "openai_nin", "openai_syth", "perplexity",
         "huggingface", "mock"] := rfl
    rw [this]
    decide
  exact List.Nodup.sublist hsub hbig

theorem availImageKeys_nodup (env : Env) :
    ((availableImageEngines env).map Prod.fst).Nodup := by
  have hsub : List.Sublist ((availableImageEngines env).map Prod.fst)
      ((imageEngineEntries env).map Prod.fst) :=
    (List.filter_sublist (imageEngineEntries env)).map Prod.fst
  have hbig : ((imageEngineEntries env).map Prod.fst).Nodup := by
    have : (imageEngineEntries env).map Prod.fst =
        ["openai_primary", "openai_nin", "openai_syth", "huggingface"] := rfl
    rw [this]
    decide
  exact List.Nodup.sublist hsub hbig

/-- A caller-named engine found among the available ones is moved to the
front and the rest keep their order: a permutation of the available list.
Needs the available keys to be duplicate-free (true of both registries). -/
theorem named_order_perm {β : Type} (avail : List (String × β)) (e : String)
    (found : String × β)
    (hnd : (avail.map Prod.fst).Nodup)
    (hfind : avail.find? (fun p => p.1 == e) = some found) :
    List.Perm (found :: avail.filter (fun p => p.1 != e)) avail := by
  obtain ⟨l1, l2, hsplit, hpa, hl1⟩ := find?_split hfind
  have hfound : found.1 = e := beq_iff_eq.mp hpa
  have hl2 : ∀ x ∈ l2, (x.1 != e) = true := by
    intro x hx
    have hnd' : ((l1 ++ found :: l2).map Prod.fst).Nodup := hsplit ▸ hnd
    rw [List.map_append, List.map_cons] at hnd'
    have h2 := (List.nodup_append.mp hnd').2.1
    have hnotin : found.1 ∉ l2.map Prod.fst := (List.nodup_cons.mp h2).1
    have hmem : x.1 ∈ l2.map Prod.fst := List.mem_map_of_mem Prod.fst hx
    have : x.1 ≠ e := by
      intro hxe
      apply hnotin
      rw [hfound, ← hxe]
      exact hmem
    simpa using this
  have hfil : avail.filter (fun p => p.1 != e) = l1 ++ l2 := by
    rw [hsplit, List.filter_append, List.filter_cons]
    have : (found.1 != e) = false := by simp [hfound]
    rw [this]
    simp only [Bool.false_eq_true, if_false]
    rw [List.filter_eq_self.mpr (fun x hx => by simpa using hl1 x hx),
      List.filter_eq_self.mpr hl2]
  rw [hfil, hsplit]
  exact List.perm_middle.symm

/-- The text default order (OpenAI engines, other real engines, mock) is a
permutation of the available list. -/
theorem textDefault_perm (avail : List (String × EngineConfig)) :
    List.Perm
      (avail.filter (fun p => strStartsWith p.1 "openai") ++
       avail.filter (fun p => !strStartsWith p.1 "openai" && p.1 != "mock") ++
       avail.filter (fun p => p.1 == "mock")) avail := by
  have h2 : avail.filter (fun p => !strStartsWith p.1 "openai" && p.1 != "mock") =
      (avail.filter (fun p => !strStartsWith p.1 "openai")).filter
        (fun p => p.1 != "mock") := by
    rw [List.filter_filter]
    exact List.filter_congr (fun x _ => by rw [Bool.and_comm])
  have h3 : avail.filter (fun p => p.1 == "mock") =
      (avail.filter (fun p => !strStartsWith p.1 "openai")).filter
        (fun p => !(p.1 != "mock")) := by
    rw [List.filter_filter]
    refine (List.filter_congr (fun x _ => ?_)).symm
    by_cases hx : x.1 = "mock"
    · rw [hx]
      decide
    · have hb : (x.1 == "mock") = false := beq_eq_false_iff_ne.mpr hx
      simp [bne, hb]
  rw [List.append_assoc, h2, h3]
  exact List.Perm.trans
    (List.Perm.append_left _ (List.filter_append_perm _ _))
    (List.filter_append_perm _ _)

theorem orderTextEngines_perm (engine : Option String) (env : Env) :
    List.Perm (orderTextEngines engine (availableTextEngines env))
      (availableTextEngines env) := by
  cases engine with
  | none =>
    simp only [orderTextEngines]
    exact textDefault_perm (availableTextEngines env)
  | some e =>
    cases hfind : (availableTextEngines env).find? (fun p => p.1 == e) with
    | none =>
      simp only [orderTextEngines, hfind]
      exact textDefault_perm (availableTextEngines env)
    | some found =>
      simp only [orderTextEngines, hfind]
      exact named_order_perm (availableTextEngines env) e found
        (availTextKeys_nodup env) hfind

theorem orderImageEngines_perm (engine : Option String) (env : Env) :
    List.Perm (orderImageEngines engine (availableImageEngines env))
      (availableImageEngines env) := by
  cases engine with
  | none =>
    simp only [orderImageEngines]
    exact List.filter_append_perm _ (availableImageEngines env)
  | some e =>
    cases hfind : (availableImageEngines env).find? (fun p => p.1 == e) with
    | none =>
      simp only [orderImageEngines, hfind]
      exact List.filter_append_perm _ (availableImageEngines env)
    | some found =>
      simp only [orderImageEngines, hfind]
      exact named_order_perm (availableImageEngines env) e found
        (availImageKeys_nodup env) hfind

theorem orderTextKeys_nodup (engine : Option String) (env : Env) :
    ((orderTextEngines engine (availableTextEngines env)).map Prod.fst).Nodup :=
  ((orderTextEngines_perm engine env).map Prod.fst).nodup_iff.mpr
    (availTextKeys_nodup env)

theorem orderImageKeys_nodup (engine : Option String) (env : Env) :
    ((orderImageEngines engine (availableImageEngines env)).map Prod.fst).Nodup :=
  ((orderImageEngines_perm engine env).map Prod.fst).nodup_iff.mpr
    (availImageKeys_nodup env)

theorem availText_split (env : Env) :
    availableTextEngines env =
      (textFrontEntries env).filter (fun p => p.2.available) ++
        [("mock", mockTextConfig)] := by
  have h : textEngineEntries env =
      textFrontEntries env ++ [("mock", mockTextConfig)] := rfl
  rw [availableTextEngines, h, List.filter_append]
  rfl

theorem textFront_key_ne_mock (env : Env) (x : String × EngineConfig)
    (hx : x ∈ (textFrontEntries env).filter (fun p => p.2.available)) :
    x.1 ≠ "mock" := by
  have hmem := List.mem_of_mem_filter hx
  have hkey : x.1 ∈ (textFrontEntries env).map Prod.fst :=
    List.mem_map_of_mem Prod.fst hmem
  have he : (textFrontEntries env).map Prod.fst =
      ["openai_primary", "openai_nin", "openai_syth", "perplexity",
       "huggingface"] := rfl
  rw [he] at hkey
  intro hxe
  rw [hxe] at hkey
  exact absurd hkey (by decide)

theorem textDefault_mock_last (env : Env) :
    ((availableTextEngines env).filter (fun p => strStartsWith p.1 "openai") ++
     (availableTextEngines env).filter
       (fun p => !strStartsWith p.1 "openai" && p.1 != "mock") ++
     (availableTextEngines env).filter (fun p => p.1 == "mock")).getLast? =
      some ("mock", mockTextConfig) := by
  rw [availText_split env]
  rw [List.filter_append, List.filter_append, List.filter_append]
  have f3l : ((textFrontEntries env).filter (fun p => p.2.available)).filter
      (fun p => p.1 == "mock") = [] := by
    rw [List.filter_eq_nil_iff]
    intro x hx
    simp [textFront_key_ne_mock env x hx]
  rw [f3l]
  rw [show [("mock", mockTextConfig)].filter
      (fun p => strStartsWith p.1 "openai") = [] from rfl]
  rw [show [("mock", mockTextConfig)].filter
      (fun p => !strStartsWith p.1 "openai" && p.1 != "mock") = [] from rfl]
  rw [show [("mock", mockTextConfig)].filter
      (fun p => p.1 == "mock") = [("mock", mockTextConfig)] from rfl]
  rw [List.append_nil, List.append_nil, List.nil_append]
  exact List.getLast?_concat _

theorem orderText_mock_last (env : Env) (engine : Option String)
    (h : engine ≠ some "mock") :
    (orderTextEngines engine (availableTextEngines env)).getLast? =
      some ("mock", mockTextConfig) := by
  cases engine with
  | none =>
    simp only [orderTextEngines]
    exact textDefault_mock_last env
  | some e =>
    have hne : e ≠ "mock" := fun he => h (by rw [he])
    cases hfind : (availableTextEngines env).find? (fun p => p.1 == e) with
    | none =>
      simp only [orderTextEngines, hfind]
      exact textDefault_mock_last env
    | some found =>
      simp only [orderTextEngines, hfind]
      rw [availText_split env, List.filter_append]
      have hmb : (("mock" : String) == e) = false :=
        beq_eq_false_iff_ne.mpr (Ne.symm hne)
      rw [show [("mock", mockTextConfig)].filter (fun p => p.1 != e) =
          [("mock", mockTextConfig)] from by simp [List.filter, bne, hmb]]
      rw [← List.cons_append]
      exact List.getLast?_concat _

theorem mock_mem_orderText (env : Env) (engine : Option String) :
    ("mock", mockTextConfig) ∈ orderTextEngines engine (availableTextEngines env) := by
  have hmem : ("mock", mockTextConfig) ∈ availableTextEngines env := by
    rw [availText_split env]
    exact List.mem_append_right _ (by simp)
  exact ((orderTextEngines_perm engine env).mem_iff).mpr hmem

/-! ## Lemmas about single engine attempts -/

theorem string_len_zero {s : String} (h : s.length = 0) : s = "" := by
  cases s with
  | mk data =>
    cases data with
    | nil => rfl
    | cons c cs => simp [String.length] at h

theorem dispatcherMsg_ne_empty (n st ms : String) :
    n ++ " error: " ++ st ++ " - " ++ ms ≠ "" := by
  intro h
  have hlen : (n ++ " error: " ++ st ++ " - " ++ ms).length = 0 := by
    rw [h]
    rfl
  simp only [String.length_append] at hlen
  rw [show (" error: " : String).length = 8 from rfl] at hlen
  omega

theorem append_ne_empty_left (a b : String) (ha : a ≠ "") : a ++ b ≠ "" := by
  intro h
  apply ha
  have hlen : (a ++ b).length = 0 := by
    rw [h]
    rfl
  rw [String.length_append] at hlen
  exact string_len_zero (by omega)

theorem attemptText_error_ne_empty (net : String → NetOutcome) (model : Option String)
    (e : String × EngineConfig) (m : String)
    (h : attemptText net model e = .error m) : m ≠ "" := by
  unfold attemptText at h
  split at h
  · exact absurd h (by simp)
  · split at h
    · injection h with h'
      rw [← h']
      exact dispatcherMsg_ne_empty _ _ _
    · split at h
      · exact absurd h (by simp)
      · injection h with h'
        rw [← h']
        decide

theorem attemptImage_error_ne_empty (net : String → String → ImgNet)
    (model : Option String) (ep : String) (e : String × ImageEngineConfig) (m : String)
    (h : attemptImage net model ep e = .error m) : m ≠ "" := by
  unfold attemptImage at h
  split at h
  · split at h
    · split at h
      · injection h with h'
        rw [← h']
        decide
      · injection h with h'
        rw [← h']
        exact append_ne_empty_left _ _ (by decide)
    · exact absurd h (by simp)
    · exact absurd h (by simp)
  · split at h
    · injection h with h'
      rw [← h']
      exact dispatcherMsg_ne_empty _ _ _
    · exact absurd h (by simp)
    · injection h with h'
      rw [← h']
      decide

theorem attemptText_ok_fields (net : String → NetOutcome) (model : Option String)
    (e : String × EngineConfig) (r : TextResult)
    (h : attemptText net model e = .ok r) :
    r.engine = e.1 ∧ r.model = textTryModel e.1 e.2 model := by
  unfold attemptText at h
  split at h
  · injection h with h'
    rw [← h']
    exact ⟨rfl, rfl⟩
  · split at h
    · exact absurd h (by simp)
    · split at h
      · injection h with h'
        rw [← h']
        exact ⟨rfl, rfl⟩
      · exact absurd h (by simp)

theorem attemptImage_ok_fields (net : String → String → ImgNet)
    (model : Option String) (ep : String) (e : String × ImageEngineConfig)
    (r : ImageResult) (h : attemptImage net model ep e = .ok r) :
    r.engine = e.1 ∧
      r.model = (if e.1 == "huggingface" then hfSelectedModel model
        else "dall-e-3") := by
  unfold attemptImage at h
  split at h
  · rename_i hk
    rw [if_pos hk]
    split at h
    · split at h <;> exact absurd h (by simp)
    · injection h with h'
      rw [← h']
      exact ⟨rfl, rfl⟩
    · injection h with h'
      rw [← h']
      exact ⟨rfl, rfl⟩
  · rename_i hk
    rw [if_neg hk]
    split at h
    · exact absurd h (by simp)
    · injection h with h'
      rw [← h']
      exact ⟨rfl, rfl⟩
    · exact absurd h (by simp)

/-! ## Structural lemmas for the two dispatcher entry points -/

theorem generateText_nonempty (env : Env) (engine model : Option String)
    (net : String → NetOutcome) (h : availableTextEngines env ≠ []) :
    generateText env engine model net =
      runEngines Prod.fst (attemptText net model)
        "All text engines failed. Last error: "
        (orderTextEngines engine (availableTextEngines env)) none := by
  simp only [generateText]
  rw [if_neg (by simp [List.length_eq_zero, h])]

theorem generateImage_sentPrompt (env : Env) (params : ImageParams)
    (net : String → String → ImgNet) (now : Nat)
    (profiles : List (String × CharacterProfile)) :
    (generateImage env params net now profiles).sentPrompt =
      (consistencyStep params.prompt params.characterName
        params.isCharacterFocused now profiles).1 := by
  simp only [generateImage]
  split <;> rfl

theorem generateImage_profiles (env : Env) (params : ImageParams)
    (net : String → String → ImgNet) (now : Nat)
    (profiles : List (String × CharacterProfile)) :
    (generateImage env params net now profiles).profiles =
      (consistencyStep params.prompt params.characterName
        params.isCharacterFocused now profiles).2 := by
  simp only [generateImage]
  split <;> rfl

theorem generateImage_nonempty (env : Env) (params : ImageParams)
    (net : String → String → ImgNet) (now : Nat)
    (profiles : List (String × CharacterProfile))
    (h : availableImageEngines env ≠ []) :
    (generateImage env params net now profiles).result =
      (runEngines Prod.fst
        (attemptImage net params.model
          (consistencyStep params.prompt params.characterName
            params.isCharacterFocused now profiles).1)
        "All image engines failed. Last error: "
        (orderImageEngines params.engine (availableImageEngines env)) none).1 ∧
    (generateImage env params net now profiles).attempted =
      (runEngines Prod.fst
        (attemptImage net params.model
          (consistencyStep params.prompt params.characterName
            params.isCharacterFocused now profiles).1)
        "All image engines failed. Last error: "
        (orderImageEngines params.engine (availableImageEngines env)) none).2 := by
  simp only [generateImage]
  rw [if_neg (by simp [List.length_eq_zero, h])]
  exact ⟨rfl, rfl⟩

theorem generateImage_empty (env : Env) (params : ImageParams)
    (net : String → String → ImgNet) (now : Nat)
    (profiles : List (String × CharacterProfile))
    (h : availableImageEngines env = []) :
    (generateImage env params net now profiles).result =
      .error (.noEngines "No image generation engines available") ∧
    (generateImage env params net now profiles).attempted = [] := by
  simp only [generateImage]
  rw [if_pos (by simp [h])]
  exact ⟨rfl, rfl⟩

/-! ## Claim C3 -/

/-- C3: for both modalities, the no-providers-available error is raised
exactly when the filtered available-candidate list is empty, and in that
case the attempted-engine trace is empty, i.e. no provider request was
issued. -/
theorem C3_no_provider_iff_empty :
    (∀ (env : Env) (engine model : Option String) (net : String → NetOutcome),
      ((generateText env engine model net).1 =
          .error (.noEngines "No text generation engines available") ↔
        availableTextEngines env = []) ∧
      (availableTextEngines env = [] →
        (generateText env engine model net).2 = [])) ∧
    (∀ (env : Env) (params : ImageParams) (net : String → String → ImgNet)
       (now : Nat) (profiles : List (String × CharacterProfile)),
      ((generateImage env params net now profiles).result =
          .error (.noEngines "No image generation engines available") ↔
        availableImageEngines env = []) ∧
      (availableImageEngines env = [] →
        (generateImage env params net now profiles).attempted = [])) := by
  constructor
  · intro env engine model net
    by_cases h : availableTextEngines env = []
    · have hg : generateText env engine model net =
          (.error (.noEngines "No text generation engines available"), []) := by
        simp only [generateText]
        rw [if_pos (by simp [h])]
      rw [hg]
      exact ⟨by simp [h], fun _ => rfl⟩
    · rw [generateText_nonempty env engine model net h]
      refine ⟨⟨fun hc => absurd hc (runEngines_ne_noEngines _ _ _ _ _ _),
        fun hc => absurd hc h⟩, fun hc => absurd hc h⟩
  · intro env params net now profiles
    by_cases h : availableImageEngines env = []
    · obtain ⟨hr, ht⟩ := generateImage_empty env params net now profiles h
      rw [hr, ht]
      exact ⟨by simp [h], fun _ => rfl⟩
    · obtain ⟨hr, ht⟩ := generateImage_nonempty env params net now profiles h
      rw [hr]
      refine ⟨⟨fun hc => absurd hc (runEngines_ne_noEngines _ _ _ _ _ _),
        fun hc => absurd hc h⟩, fun hc => absurd hc h⟩

/-- Witness for C3 at a configuration with no image API keys: the error is
raised and no engine is attempted. -/
theorem C3_witness :
    (generateImage ⟨false, false, false, false, false⟩
        ⟨"p", none, none, none, false⟩ (fun _ _ => .okNoImage) 0 []).result =
      .error (.noEngines "No image generation engines available") ∧
    (generateImage ⟨false, false, false, false, false⟩
        ⟨"p", none, none, none, false⟩ (fun _ _ => .okNoImage) 0 []).attempted = [] :=
  ⟨((C3_no_provider_iff_empty.2 ⟨false, false, false, false, false⟩
      ⟨"p", none, none, none, false⟩ (fun _ _ => .okNoImage) 0 []).1).mpr rfl,
   (C3_no_provider_iff_empty.2 ⟨false, false, false, false, false⟩
      ⟨"p", none, none, none, false⟩ (fun _ _ => .okNoImage) 0 []).2 rfl⟩

/-! ## Claim C10 -/

/-- C10: with a (non-empty) character name and `isCharacterFocused`, the
consistency-cache mutation happens before the availability check and the
dispatch loop: the final cache state is exactly the consistency step's
output (whatever the engines do), and the character's profile is present
afterwards — including when the call itself fails. -/
theorem C10_cache_mutation_before_dispatch
    (env : Env) (params : ImageParams) (net : String → String → ImgNet)
    (now : Nat) (profiles : List (String × CharacterProfile)) (name : String)
    (hname : params.characterName = some name) (hne : name ≠ "")
    (hfoc : params.isCharacterFocused = true) :
    (generateImage env params net now profiles).profiles =
      (consistencyStep params.prompt params.characterName
        params.isCharacterFocused now profiles).2 ∧
    (alistGet (generateImage env params net now profiles).profiles name).isSome
      = true := by
  refine ⟨generateImage_profiles env params net now profiles, ?_⟩
  rw [generateImage_profiles, hname]
  simp only [consistencyStep]
  rw [if_pos (show (name != "" && params.isCharacterFocused) = true by
    rw [hfoc]
    simp [bne, beq_eq_false_iff_ne.mpr hne])]
  cases hget : alistGet profiles name with
  | some profile =>
    simp only [hget]
    exact isSome_alistGet_alistSet _ _ _
  | none =>
    simp only [hget]
    exact isSome_alistGet_alistSet _ _ _

/-- Witness for C10: no image engine is available, the call fails with the
no-providers error, yet the profile for the named character was stored. -/
theorem C10_witness :
    (generateImage ⟨false, false, false, false, false⟩
        ⟨"portrait", none, none, some "Yuki", true⟩
        (fun _ _ => .okNoImage) 7 []).result =
      .error (.noEngines "No image generation engines available") ∧
    (alistGet (generateImage ⟨false, false, false, false, false⟩
        ⟨"portrait", none, none, some "Yuki", true⟩
        (fun _ _ => .okNoImage) 7 []).profiles "Yuki").isSome = true :=
  ⟨rfl, (C10_cache_mutation_before_dispatch ⟨false, false, false, false, false⟩
      ⟨"portrait", none, none, some "Yuki", true⟩ (fun _ _ => .okNoImage) 7 []
      "Yuki" rfl (by decide) rfl).2⟩

/-! ## Claim C1 -/

/-- C1: for any ordered candidate list produced by the dispatcher in which
every candidate before `e` fails and `e` succeeds, `generateText` (and
likewise `generateImage`) returns `e`'s normalized result — its `engine`
field is `e`'s id and its `model` field the model the attempt actually used
— and the attempted-engine trace stops at `e`: no later candidate is
tried. -/
theorem C1_failover_first_success :
    (∀ (env : Env) (engine model : Option String) (net : String → NetOutcome)
       (pre post : List (String × EngineConfig)) (e : String × EngineConfig)
       (r : TextResult),
       orderTextEngines engine (availableTextEngines env) = pre ++ e :: post →
       (∀ c ∈ pre, isErr (attemptText net model c) = true) →
       attemptText net model e = .ok r →
       generateText env engine model net = (.ok r, pre.map Prod.fst ++ [e.1]) ∧
         r.engine = e.1 ∧ r.model = textTryModel e.1 e.2 model) ∧
    (∀ (env : Env) (params : ImageParams) (net : String → String → ImgNet)
       (now : Nat) (profiles : List (String × CharacterProfile))
       (pre post : List (String × ImageEngineConfig))
       (e : String × ImageEngineConfig) (r : ImageResult),
       orderImageEngines params.engine (availableImageEngines env) =
         pre ++ e :: post →
       (∀ c ∈ pre, isErr (attemptImage net params.model
         (generateImage env params net now profiles).sentPrompt c) = true) →
       attemptImage net params.model
         (generateImage env params net now profiles).sentPrompt e = .ok r →
       (generateImage env params net now profiles).result = .ok r ∧
       (generateImage env params net now profiles).attempted =
         pre.map Prod.fst ++ [e.1] ∧
       r.engine = e.1 ∧
       r.model = (if e.1 == "huggingface" then hfSelectedModel params.model
         else "dall-e-3")) := by
  constructor
  · intro env engine model net pre post e r hL hpre hok
    have hne : availableTextEngines env ≠ [] := by
      intro hempty
      rw [hempty] at hL
      have hord : orderTextEngines engine ([] : List (String × EngineConfig)) = [] := by
        cases engine <;> simp [orderTextEngines]
      rw [hord] at hL
      exact absurd hL.symm (by simp)
    rw [generateText_nonempty env engine model net hne, hL,
      runEngines_append_ok _ _ _ pre e post r hpre hok none]
    exact ⟨rfl, (attemptText_ok_fields _ _ _ _ hok).1,
      (attemptText_ok_fields _ _ _ _ hok).2⟩
  · intro env params net now profiles pre post e r hL hpre hok
    have hne : availableImageEngines env ≠ [] := by
      intro hempty
      rw [hempty] at hL
      have hord : orderImageEngines params.engine
          ([] : List (String × ImageEngineConfig)) = [] := by
        cases params.engine <;> simp [orderImageEngines]
      rw [hord] at hL
      exact absurd hL.symm (by simp)
    obtain ⟨hr, ht⟩ := generateImage_nonempty env params net now profiles hne
    rw [generateImage_sentPrompt] at hpre hok
    rw [hr, ht, hL, runEngines_append_ok _ _ _ pre e post r hpre hok none]
    exact ⟨rfl, rfl, (attemptImage_ok_fields _ _ _ _ _ hok).1,
      (attemptImage_ok_fields _ _ _ _ _ hok).2⟩

/-- Witness for C1: with every key configured, the first candidate (OpenAI
primary) fails with a 500 and the second (OpenAI Nin) succeeds; the result
carries the second candidate's id and model, and nothing after it is
attempted. -/
theorem C1_witness :
    generateText ⟨true, true, true, true, true⟩ none none
        (fun k => if k == "openai_primary" then .httpFail 500 "boom"
          else .content "hello") =
      (.ok ⟨"hello", "openai_nin", "gpt-4o"⟩, ["openai_primary", "openai_nin"]) ∧
    (generateImage ⟨true, true, true, true, true⟩ ⟨"p", none, none, none, false⟩
        (fun k _ => if k == "openai_primary" then .httpFail 500 "boom"
          else .okBody "QUJD") 0 []).result =
      .ok ⟨"data:image/png;base64,QUJD", "openai_nin", "dall-e-3"⟩ :=
  ⟨(C1_failover_first_success.1 ⟨true, true, true, true, true⟩ none none
      (fun k => if k == "openai_primary" then .httpFail 500 "boom"
        else .content "hello")
      [("openai_primary",
        ⟨"OpenAI Primary", ["gpt-4o", "gpt-4o-mini", "gpt-3.5-turbo"], true⟩)]
      [("openai_syth", ⟨"OpenAI Syth", ["gpt-4o", "gpt-4o-mini"], true⟩),
       ("perplexity",
        ⟨"Perplexity", ["sonar", "sonar-pro", "sonar-reasoning",
          "llama-3.1-8b-instruct", "llama-3.1-70b-instruct"], true⟩),
       ("huggingface",
        ⟨"HuggingFace", ["microsoft/DialoGPT-medium", "gpt2",
          "facebook/blenderbot-400M-distill"], true⟩),
       ("mock", mockTextConfig)]
      ("openai_nin", ⟨"OpenAI Nin", ["gpt-4o", "gpt-4o-mini"], true⟩)
      _ (by decide) (by decide) rfl).1,
   (C1_failover_first_success.2 ⟨true, true, true, true, true⟩
      ⟨"p", none, none, none, false⟩
      (fun k _ => if k == "openai_primary" then .httpFail 500 "boom"
        else .okBody "QUJD") 0 []
      [("openai_primary", ⟨"OpenAI DALL-E", true⟩)]
      [("openai_syth", ⟨"OpenAI Syth DALL-E", true⟩),
       ("huggingface", ⟨"HuggingFace", true⟩)]
      ("openai_nin", ⟨"OpenAI Nin DALL-E", true⟩)
      _ (by decide) (by decide) rfl).1⟩

/-! ## Claim C2 -/

/-- C2: when every candidate in the ordered list fails, both dispatchers
throw the aggregate all-engines-failed error carrying the message of the
last candidate's failure, and the attempted-engine trace is exactly the
ordered candidate list, which has no duplicate ids — no provider is
attempted twice.  (For text the hypothesis is vacuous in practice: the mock
candidate never fails — see C6 — but the loop satisfies the property.) -/
theorem C2_exhaustion_last_error :
    (∀ (env : Env) (engine model : Option String) (net : String → NetOutcome)
       (init : List (String × EngineConfig)) (last : String × EngineConfig)
       (lastMsg : String),
       orderTextEngines engine (availableTextEngines env) = init ++ [last] →
       (∀ c ∈ init, isErr (attemptText net model c) = true) →
       attemptText net model last = .error lastMsg →
       generateText env engine model net =
         (.error (.allFailed ("All text engines failed. Last error: " ++ lastMsg)),
          (init ++ [last]).map Prod.fst) ∧
       ((init ++ [last]).map Prod.fst).Nodup) ∧
    (∀ (env : Env) (params : ImageParams) (net : String → String → ImgNet)
       (now : Nat) (profiles : List (String × CharacterProfile))
       (init : List (String × ImageEngineConfig))
       (last : String × ImageEngineConfig) (lastMsg : String),
       orderImageEngines params.engine (availableImageEngines env) =
         init ++ [last] →
       (∀ c ∈ init, isErr (attemptImage net params.model
         (generateImage env params net now profiles).sentPrompt c) = true) →
       attemptImage net params.model
         (generateImage env params net now profiles).sentPrompt last =
           .error lastMsg →
       (generateImage env params net now profiles).result =
         .error (.allFailed ("All image engines failed. Last error: " ++ lastMsg)) ∧
       (generateImage env params net now profiles).attempted =
         (init ++ [last]).map Prod.fst ∧
       ((init ++ [last]).map Prod.fst).Nodup) := by
  constructor
  · intro env engine model net init last lastMsg hL hinit hlast
    have hne : availableTextEngines env ≠ [] := by
      intro hempty
      rw [hempty] at hL
      have hord : orderTextEngines engine ([] : List (String × EngineConfig)) = [] := by
        cases engine <;> simp [orderTextEngines]
      rw [hord] at hL
      exact absurd hL.symm (by simp)
    constructor
    · rw [generateText_nonempty env engine model net hne, hL,
        runEngines_all_fail _ _ _ init last lastMsg hinit hlast
          (attemptText_error_ne_empty _ _ _ _ hlast) none]
    · rw [← hL]
      exact orderTextKeys_nodup engine env
  · intro env params net now profiles init last lastMsg hL hinit hlast
    have hne : availableImageEngines env ≠ [] := by
      intro hempty
      rw [hempty] at hL
      have hord : orderImageEngines params.engine
          ([] : List (String × ImageEngineConfig)) = [] := by
        cases params.engine <;> simp [orderImageEngines]
      rw [hord] at hL
      exact absurd hL.symm (by simp)
    obtain ⟨hr, ht⟩ := generateImage_nonempty env params net now profiles hne
    rw [generateImage_sentPrompt] at hinit hlast
    refine ⟨?_, ?_, ?_⟩
    · rw [hr, hL, runEngines_all_fail _ _ _ init last lastMsg hinit hlast
        (attemptImage_error_ne_empty _ _ _ _ _ hlast) none]
    · rw [ht, hL, runEngines_all_fail _ _ _ init last lastMsg hinit hlast
        (attemptImage_error_ne_empty _ _ _ _ _ hlast) none]
    · rw [← hL]
      exact orderImageKeys_nodup params.engine env

/-- Witness for C2, on the image dispatcher (for text the all-fail
hypothesis is unsatisfiable because the mock engine always succeeds): with
the OpenAI primary and HuggingFace keys set and both engines failing, the
aggregate error carries the last (HuggingFace) failure message, and the
trace lists each engine exactly once. -/
theorem C2_witness :
    (generateImage ⟨true, false, false, true, false⟩ ⟨"p", none, none, none, false⟩
        (fun _ _ => .httpFail 500 "boom") 0 []).result =
      .error (.allFailed ("All image engines failed. Last error: " ++
        "HuggingFace error: 500")) ∧
    (generateImage ⟨true, false, false, true, false⟩ ⟨"p", none, none, none, false⟩
        (fun _ _ => .httpFail 500 "boom") 0 []).attempted =
      ["openai_primary", "huggingface"] ∧
    (["openai_primary", "huggingface"] : List String).Nodup := by
  have h := C2_exhaustion_last_error.2 ⟨true, false, false, true, false⟩
    ⟨"p", none, none, none, false⟩ (fun _ _ => .httpFail 500 "boom") 0 []
    [("openai_primary", ⟨"OpenAI DALL-E", true⟩)] ("huggingface", ⟨"HuggingFace", true⟩)
    "HuggingFace error: 500" (by decide) (by decide) rfl
  exact ⟨h.1, h.2.1, h.2.2⟩

/-! ## Claim C6 (amended) -/

/-- C6 (amended): the mock text engine always succeeds, without a network
call, returning the fixed placeholder script `mockContent`; unless the
caller explicitly names it, it is ordered after every other available
candidate; and consequently `generateText` never throws — in particular it
never fails with the all-engines-failed error.  (Its placeholder does not
match the client script schema — see the counterexample.) -/
theorem C6_mock_last_resort :
    (∀ (net : String → NetOutcome) (model : Option String),
      attemptText net model ("mock", mockTextConfig) =
        .ok ⟨mockContent, "mock", model.getD "simple-manga-generator"⟩) ∧
    (∀ (env : Env) (engine : Option String), engine ≠ some "mock" →
      (orderTextEngines engine (availableTextEngines env)).getLast? =
        some ("mock", mockTextConfig)) ∧
    (∀ (env : Env) (engine model : Option String) (net : String → NetOutcome),
      isOk (generateText env engine model net).1 = true) := by
  refine ⟨fun net model => rfl, fun env engine h => orderText_mock_last env engine h, ?_⟩
  intro env engine model net
  have hne : availableTextEngines env ≠ [] := by
    rw [availText_split env]
    simp
  rw [generateText_nonempty env engine model net hne]
  exact runEngines_ok_of_mem Prod.fst (attemptText net model)
    "All text engines failed. Last error: " _ _ (mock_mem_orderText env engine)
    rfl none

/-- Witness for C6: with no API key configured and an engine hint that is
not the mock, the mock is last in the candidate order and the call still
succeeds. -/
theorem C6_witness :
    (orderTextEngines (some "perplexity")
        (availableTextEngines ⟨false, false, false, false, false⟩)).getLast? =
      some ("mock", mockTextConfig) ∧
    isOk (generateText ⟨false, false, false, false, false⟩ (some "perplexity") none
        (fun _ => .content "")).1 = true :=
  ⟨C6_mock_last_resort.2.1 ⟨false, false, false, false, false⟩ (some "perplexity")
      (by simp),
   C6_mock_last_resort.2.2 ⟨false, false, false, false, false⟩ (some "perplexity")
      none (fun _ => .content "")⟩

/-- Counterexample for C6 as stated: the mock's fixed placeholder is what
`generateText` returns when only the mock is available, and it is
`JSON.stringify` of `mockScriptJson` — but that object does not match the
expected script JSON shape (the `MangaScript` schema of the client types
and of the script prompt's schema contract): it has no `style_bible`, its
page has no `number`, and its panels carry
`panelNumber`/`mood`/`characters`/`imagePrompt` with `dialogue` a single
string instead of `id`/`dialogue[]`/`sfx`/`notes`. -/
theorem C6_counterexample :
    (generateText ⟨false, false, false, false, false⟩ none none
        (fun _ => .content "")).1 =
      .ok ⟨mockContent, "mock", "simple-manga-generator"⟩ ∧
    mockContent = serialize mockScriptJson ∧
    mangaScriptShape mockScriptJson = false :=
  ⟨rfl, rfl, rfl⟩

/-! ## Claim C7 (amended) -/

/-- C7 (amended): when a `generateImage` call exhausts its candidates and
the terminal (last) candidate is HuggingFace failing with HTTP 503 (the
model-is-loading condition), the dispatcher raises the *same* aggregate
all-engines-failed error it raises for hard failures; the wait-and-retry
hint is carried only inside that error's message text ("Model is warming
up. Please try again in 30-60 seconds."), so a caller can distinguish the
warming-up case only by inspecting the message, not by a distinct
ProviderWarmingUp error kind. -/
theorem C7_warming_up_aggregate :
    ∀ (env : Env) (params : ImageParams) (net : String → String → ImgNet)
      (now : Nat) (profiles : List (String × CharacterProfile))
      (init : List (String × ImageEngineConfig)) (cfg : ImageEngineConfig)
      (msg503 : String),
      orderImageEngines params.engine (availableImageEngines env) =
        init ++ [("huggingface", cfg)] →
      (∀ c ∈ init, isErr (attemptImage net params.model
        (generateImage env params net now profiles).sentPrompt c) = true) →
      net "huggingface" (generateImage env params net now profiles).sentPrompt =
        .httpFail 503 msg503 →
      (generateImage env params net now profiles).result =
        .error (.allFailed
          "All image engines failed. Last error: Model is warming up. Please try again in 30-60 seconds.") ∧
      List.IsInfix ("Please try again in 30-60 seconds.").data
        ("All image engines failed. Last error: Model is warming up. Please try again in 30-60 seconds.").data := by
  intro env params net now profiles init cfg msg503 hL hinit hnet
  have hne : availableImageEngines env ≠ [] := by
    intro hempty
    rw [hempty] at hL
    have hord : orderImageEngines params.engine
        ([] : List (String × ImageEngineConfig)) = [] := by
      cases params.engine <;> simp [orderImageEngines]
    rw [hord] at hL
    exact absurd hL.symm (by simp)
  obtain ⟨hr, ht⟩ := generateImage_nonempty env params net now profiles hne
  rw [generateImage_sentPrompt] at hinit hnet
  have hatt : attemptImage net params.model
      (consistencyStep params.prompt params.characterName
        params.isCharacterFocused now profiles).1 ("huggingface", cfg) =
      .error "Model is warming up. Please try again in 30-60 seconds." := by
    simp [attemptImage, hnet]
  constructor
  · rw [hr, hL, runEngines_all_fail _ _ _ init _ _ hinit hatt (by decide) none]
    rfl
  · decide

/-- Witness for C7: OpenAI primary and HuggingFace configured, the OpenAI
attempt fails with a 500 and the terminal HuggingFace attempt returns 503:
the surfaced failure is the aggregate error with the warming-up hint in its
message. -/
theorem C7_witness :
    (generateImage ⟨true, false, false, true, false⟩ ⟨"p", none, none, none, false⟩
        (fun k _ => if k == "huggingface" then .httpFail 503 "loading"
          else .httpFail 500 "boom") 0 []).result =
      .error (.allFailed
        "All image engines failed. Last error: Model is warming up. Please try again in 30-60 seconds.") ∧
    List.IsInfix ("Please try again in 30-60 seconds.").data
      ("All image engines failed. Last error: Model is warming up. Please try again in 30-60 seconds.").data :=
  C7_warming_up_aggregate ⟨true, false, false, true, false⟩
    ⟨"p", none, none, none, false⟩
    (fun k _ => if k == "huggingface" then .httpFail 503 "loading"
      else .httpFail 500 "boom") 0 []
    [("openai_primary", ⟨"OpenAI DALL-E", true⟩)] ⟨"HuggingFace", true⟩ "loading"
    (by decide) (by decide) rfl

/-- Counterexample for C7 as stated: a terminal-503 exhaustion and a
hard-failure exhaustion both surface through the same aggregate
all-engines-failed error constructor — there is no distinct
ProviderWarmingUp failure; only the embedded message text differs. -/
theorem C7_counterexample :
    (generateImage ⟨true, false, false, true, false⟩ ⟨"p", none, none, none, false⟩
        (fun k _ => if k == "huggingface" then .httpFail 503 "loading"
          else .httpFail 500 "boom") 0 []).result =
      .error (.allFailed
        "All image engines failed. Last error: Model is warming up. Please try again in 30-60 seconds.") ∧
    (generateImage ⟨true, false, false, true, false⟩ ⟨"p", none, none, none, false⟩
        (fun _ _ => .httpFail 500 "hard failure") 0 []).result =
      .error (.allFailed
        "All image engines failed. Last error: HuggingFace error: 500") :=
  ⟨rfl, rfl⟩

/-! ## Lemmas about the script parser's fence extraction -/

theorem parseJson_fence (s : String) : parseJson ("```json" ++ s ++ "```") = none := rfl

theorem isPrefixOf_self_append : ∀ (l r : List Char), l.isPrefixOf (l ++ r) = true := by
  intro l
  induction l with
  | nil =>
    intro r
    simp [List.isPrefixOf]
  | cons c cs ih =>
    intro r
    simp [List.isPrefixOf, ih r]

theorem findSub_self_start (pat rest : List Char) (hp : pat ≠ []) :
    findSub pat (pat ++ rest) = some 0 := by
  cases pat with
  | nil => exact absurd rfl hp
  | cons c cs =>
    rw [List.cons_append, findSub]
    rw [if_pos (by
      rw [← List.cons_append]
      exact isPrefixOf_self_append _ _)]

theorem findSub_ticks (text : List Char) (h : ∀ x ∈ text, x ≠ '`') :
    findSub ('`' :: '`' :: '`' :: []) (text ++ '`' :: '`' :: '`' :: []) =
      some text.length := by
  induction text with
  | nil => decide
  | cons c cs ih =>
    have hc : ('`' == c) = false :=
      beq_eq_false_iff_ne.mpr (Ne.symm (h c (by simp)))
    rw [List.cons_append, findSub,
      if_neg (by simp [List.isPrefixOf, hc]),
      ih (fun x hx => h x (by simp [hx]))]
    rfl

theorem extractFenced_wrap (l : List Char) (h : ∀ c ∈ l, c ≠ '`') :
    extractFencedJson ("```json" ++ String.mk l ++ "```") = some (String.mk l) := by
  have h1 : findSub ("```json".data) (("```json" ++ String.mk l ++ "```").data) =
      some 0 := findSub_self_start _ _ (by decide)
  have hdrop : ((("```json" ++ String.mk l ++ "```").data).drop 0).drop 7 =
      l ++ ('`' :: '`' :: '`' :: []) := rfl
  have h2 : findSub ("```".data) (l ++ ('`' :: '`' :: '`' :: [])) =
      some l.length := findSub_ticks l h
  simp only [extractFencedJson, h1, hdrop, h2, List.take_left]

/-! ## Claim C5 (amended) -/

/-- C5 (amended): the script parsing block of `generateMangaScript` attempts
a direct JSON parse first and returns its value on success; when the direct
parse fails and the response wraps a payload in a ```` ```json ````-tagged
fence (the tag is mandatory — an untagged fence is not salvaged, see the
counterexample), it parses the inner content, yielding exactly the value of
parsing the unwrapped string — or propagates the inner syntax error; and
when no tagged fence exists, it throws the fixed diagnostic message, which
does not include any excerpt of the raw response. -/
theorem C5_parse_salvage :
    (∀ (raw : String) (j : Json), parseJson raw = some j → parseScript raw = .ok j) ∧
    (∀ s : String, (∀ c ∈ s.data, c ≠ '`') →
      parseScript ("```json" ++ s ++ "```") =
        (match parseJson s with
         | some j => .ok j
         | none => .error .innerSyntaxError)) ∧
    (∀ raw : String, parseJson raw = none → extractFencedJson raw = none →
      parseScript raw =
        .error (.parseFailed "Failed to parse manga script JSON response")) := by
  refine ⟨?_, ?_, ?_⟩
  · intro raw j h
    unfold parseScript
    rw [h]
  · intro s h
    unfold parseScript
    rw [parseJson_fence s]
    cases s with
    | mk l =>
      rw [extractFenced_wrap l h]
  · intro raw h1 h2
    unfold parseScript
    rw [h1, h2]

/-- Witness for C5 (amended), covering its three branches on concrete
responses: a plain JSON response, a ```` ```json ````-fenced response
parsing to the same value as its unwrapped body, and a hopeless response
yielding the fixed diagnostic. -/
theorem C5_witness :
    parseScript "\x7b\"t\":true\x7d" = .ok (.obj [("t", .bool true)]) ∧
    parseScript ("```json" ++ "\n\x7b\"a\":1\x7d\n" ++ "```") =
      (match parseJson "\n\x7b\"a\":1\x7d\n" with
       | some j => .ok j
       | none => .error .innerSyntaxError) ∧
    parseScript "not json at all" =
      .error (.parseFailed "Failed to parse manga script JSON response") :=
  ⟨C5_parse_salvage.1 "\x7b\"t\":true\x7d" (.obj [("t", .bool true)]) rfl,
   C5_parse_salvage.2.1 "\n\x7b\"a\":1\x7d\n" (by decide),
   C5_parse_salvage.2.2 "not json at all" rfl rfl⟩

/-- Counterexample for C5 as stated: an *untagged* triple-backtick fence
containing perfectly valid JSON is not salvaged — the regex requires the
literal ```` ```json ```` tag — and the thrown error is the fixed message
"Failed to parse manga script JSON response", which does not name the raw
response's first N characters. -/
theorem C5_counterexample :
    parseScript "```\n\x7b\"a\":1\x7d\n```" =
      .error (.parseFailed "Failed to parse manga script JSON response") ∧
    parseJson "\n\x7b\"a\":1\x7d\n" = some (.obj [("a", .num "1")]) :=
  ⟨rfl, rfl⟩

/-! ## Claim C8 -/

theorem batchAux_spec (generateOne : String → Except String String)
    (batchSize : Nat) (hbs : 1 ≤ batchSize) :
    ∀ (fuel : Nat) (ps : List String), ps.length ≤ fuel →
      (batchGroupsAux generateOne batchSize fuel ps).flatten =
        ps.map (batchEntryFor generateOne) ∧
      ∀ g ∈ batchGroupsAux generateOne batchSize fuel ps,
        g.length ≤ batchSize := by
  intro fuel
  induction fuel with
  | zero =>
    intro ps hps
    have hnil : ps = [] := List.length_eq_zero.mp (Nat.le_zero.mp hps)
    subst hnil
    exact ⟨rfl, by simp [batchGroupsAux]⟩
  | succ n ih =>
    intro ps hps
    cases ps with
    | nil => exact ⟨rfl, by simp [batchGroupsAux]⟩
    | cons p ps' =>
      have hlen : (List.drop batchSize (p :: ps')).length ≤ n := by
        rw [List.length_drop]
        simp only [List.length_cons] at hps ⊢
        omega
      obtain ⟨h1, h2⟩ := ih (List.drop batchSize (p :: ps')) hlen
      constructor
      · show ((List.take batchSize (p :: ps')).map (batchEntryFor generateOne) ::
            batchGroupsAux generateOne batchSize n
              (List.drop batchSize (p :: ps'))).flatten = _
        rw [List.flatten_cons, h1, ← List.map_append, List.take_append_drop]
      · intro g hg
        rcases List.mem_cons.mp hg with rfl | hg'
        · rw [List.length_map, List.length_take]
          omega
        · exact h2 g hg'

/-- C8: for a positive `batchSize`, the batch route attempts every prompt
exactly once — its results are exactly the per-prompt outcomes in input
order, so one prompt's failure is recorded in that prompt's own entry
without aborting the rest — the work is split into consecutive groups of at
most `batchSize`, and the result list mirrors the prompt list's length and
order.  (For `batchSize = 0` the JavaScript loop would not terminate, which
a total model cannot express; the claim is settled for meaningful batch
sizes.) -/
theorem C8_batch_isolated_ordered (generateOne : String → Except String String)
    (prompts : List String) (batchSize : Nat) (hbs : 1 ≤ batchSize) :
    generateBatch generateOne prompts batchSize =
      prompts.map (batchEntryFor generateOne) ∧
    (∀ g ∈ batchGroups generateOne prompts batchSize, g.length ≤ batchSize) ∧
    (generateBatch generateOne prompts batchSize).map (fun r => r.prompt) =
      prompts := by
  obtain ⟨h1, h2⟩ :=
    batchAux_spec generateOne batchSize hbs prompts.length prompts (Nat.le_refl _)
  refine ⟨h1, h2, ?_⟩
  have hp : ∀ q, (batchEntryFor generateOne q).prompt = q := by
    intro q
    unfold batchEntryFor
    cases generateOne q <;> rfl
  rw [show generateBatch generateOne prompts batchSize = _ from h1, List.map_map]
  rw [show ((fun r : BatchEntry => r.prompt) ∘ batchEntryFor generateOne) = id
    from funext (fun q => hp q)]
  exact List.map_id _

/-- Witness for C8: five prompts, batch size two, with the third prompt
failing: every prompt has exactly one entry, in order, and the failing
prompt's error is recorded in its own entry. -/
theorem C8_witness :
    generateBatch
        (fun q => if q == "bad" then .error "boom" else .ok ("img-" ++ q))
        ["a", "b", "bad", "d", "e"] 2 =
      (["a", "b", "bad", "d", "e"].map (batchEntryFor
        (fun q => if q == "bad" then .error "boom" else .ok ("img-" ++ q)))) ∧
    (∀ g ∈ batchGroups
        (fun q => if q == "bad" then .error "boom" else .ok ("img-" ++ q))
        ["a", "b", "bad", "d", "e"] 2, g.length ≤ 2) ∧
    (generateBatch
        (fun q => if q == "bad" then .error "boom" else .ok ("img-" ++ q))
        ["a", "b", "bad", "d", "e"] 2).map (fun r => r.prompt) =
      ["a", "b", "bad", "d", "e"] :=
  C8_batch_isolated_ordered
    (fun q => if q == "bad" then .error "boom" else .ok ("img-" ++ q))
    ["a", "b", "bad", "d", "e"] 2 (by decide)

/-! ## Claim C9 -/

theorem joinNl_six (a b c d e h : String) :
    joinNl [a, b, c, d, e, h] =
      (a ++ "\n" ++ b ++ "\n" ++ c ++ "\n" ++ d ++ "\n" ++ e ++ "\n") ++ h := by
  simp only [joinNl]
  simp [String.append_assoc]

/-- C9: the Prompt Builder's panel image prompt ends in the negative-space
hint selected by dialogue count: "top and side" phrasing for more than one
dialogue line, "top" for exactly one, and the generic lettering-space hint
for none. -/
theorem C9_negative_space_hint (p : Panel) (sb : StyleBible) :
    (1 < p.dialogue.length →
      ∃ s, buildImagePrompt p sb =
        s ++ "Leave negative space along top and side for speech bubbles.") ∧
    (p.dialogue.length = 1 →
      ∃ s, buildImagePrompt p sb =
        s ++ "Leave negative space along top for speech bubbles.") ∧
    (p.dialogue.length = 0 →
      ∃ s, buildImagePrompt p sb =
        s ++ "Leave generous negative space for possible lettering.") := by
  refine ⟨fun hlen => ?_, fun hlen => ?_, fun hlen => ?_⟩
  · simp only [buildImagePrompt]
    rw [if_pos (bne_iff_ne.mpr (by omega)), if_pos hlen, joinNl_six]
    exact ⟨_, rfl⟩
  · simp only [buildImagePrompt]
    rw [if_pos (bne_iff_ne.mpr (by omega)),
      if_neg (show ¬(1 < p.dialogue.length) by omega), joinNl_six]
    exact ⟨_, rfl⟩
  · simp only [buildImagePrompt]
    rw [if_neg (show ¬((p.dialogue.length != 0) = true) by
      simp [bne_iff_ne, hlen]), joinNl_six]
    exact ⟨_, rfl⟩

/-- Witness for C9 at three concrete panels with two, one and zero dialogue
lines. -/
theorem C9_witness :
    (∃ s, buildImagePrompt ⟨"1-1", "duel", ["en garde", "ha"], [], ""⟩
        ⟨"", [], [], []⟩ =
      s ++ "Leave negative space along top and side for speech bubbles.") ∧
    (∃ s, buildImagePrompt ⟨"1-2", "stare", ["..."], [], ""⟩
        ⟨"", [], [], []⟩ =
      s ++ "Leave negative space along top for speech bubbles.") ∧
    (∃ s, buildImagePrompt ⟨"1-3", "calm", [], [], ""⟩
        ⟨"", [], [], []⟩ =
      s ++ "Leave generous negative space for possible lettering.") :=
  ⟨(C9_negative_space_hint ⟨"1-1", "duel", ["en garde", "ha"], [], ""⟩
      ⟨"", [], [], []⟩).1 (by decide),
   (C9_negative_space_hint ⟨"1-2", "stare", ["..."], [], ""⟩
      ⟨"", [], [], []⟩).2.1 rfl,
   (C9_negative_space_hint ⟨"1-3", "calm", [], [], ""⟩
      ⟨"", [], [], []⟩).2.2 rfl⟩

/-! ## Claim C4 -/

theorem consistencyStep_fresh (prompt name : String) (now : Nat)
    (profiles : List (String × CharacterProfile)) (hne : name ≠ "")
    (hget : alistGet profiles name = none) :
    consistencyStep prompt (some name) true now profiles =
      (extractCharacterTraits prompt ++ ". " ++ prompt ++
        ". Establish consistent character design for future reference.",
       alistSet profiles name
         ⟨"Character named " ++ name, extractCharacterTraits prompt, now⟩) := by
  simp only [consistencyStep]
  rw [if_pos (show (name != "" && true) = true by
    simp [bne, beq_eq_false_iff_ne.mpr hne]), hget]

theorem consistencyStep_existing (prompt name : String) (now : Nat)
    (profiles : List (String × CharacterProfile)) (profile : CharacterProfile)
    (hne : name ≠ "") (hget : alistGet profiles name = some profile) :
    consistencyStep prompt (some name) true now profiles =
      (profile.description ++ ", " ++ profile.visualTraits ++ ". " ++ prompt ++
        ". Consistent character design, same facial features, same hair, same clothing style as previous appearances.",
       alistSet profiles name
         ⟨profile.description, profile.visualTraits, now⟩) := by
  simp only [consistencyStep]
  rw [if_pos (show (name != "" && true) = true by
    simp [bne, beq_eq_false_iff_ne.mpr hne]), hget]

theorem substr_of_decomp (pre mid post : String) {s : String}
    (h : s = pre ++ mid ++ post) : List.IsInfix mid.data s.data := by
  refine ⟨pre.data, post.data, ?_⟩
  rw [h]
  simp [String.data_append]

/-- C4: two `generateImage` calls with the same (non-empty) `characterName`
and `isCharacterFocused = true`, starting from a cache without that
character: the second call's outgoing prompt is built from the profile
stored by the first call — it contains the trait descriptors extracted from
the *first* call's prompt and the literal consistency directive phrase —
and the second call only refreshes the profile's `lastUsed` timestamp
(description and traits are unchanged, not re-extracted).  A third call
with a different character name does not receive the first character's
profile: its outgoing prompt is built from traits freshly extracted from
its own prompt. -/
theorem C4_character_consistency
    (env1 env2 env3 : Env) (net1 net2 net3 : String → String → ImgNet)
    (now1 now2 now3 : Nat) (st : List (String × CharacterProfile))
    (name name2 p1 p2 p3 : String) (e1 e2 e3 m1 m2 m3 : Option String)
    (hne : name ≠ "") (hne2 : name2 ≠ "") (hdiff : name2 ≠ name)
    (hst : alistGet st name = none) (hst2 : alistGet st name2 = none) :
    (generateImage env2 ⟨p2, e2, m2, some name, true⟩ net2 now2
        (generateImage env1 ⟨p1, e1, m1, some name, true⟩ net1 now1 st).profiles).sentPrompt =
      "Character named " ++ name ++ ", " ++ extractCharacterTraits p1 ++ ". " ++ p2 ++
        ". Consistent character design, same facial features, same hair, same clothing style as previous appearances." ∧
    List.IsInfix (extractCharacterTraits p1).data
      ((generateImage env2 ⟨p2, e2, m2, some name, true⟩ net2 now2
        (generateImage env1 ⟨p1, e1, m1, some name, true⟩ net1 now1 st).profiles).sentPrompt).data ∧
    List.IsInfix
      ("same facial features, same hair, same clothing style as previous appearances" : String).data
      ((generateImage env2 ⟨p2, e2, m2, some name, true⟩ net2 now2
        (generateImage env1 ⟨p1, e1, m1, some name, true⟩ net1 now1 st).profiles).sentPrompt).data ∧
    alistGet (generateImage env2 ⟨p2, e2, m2, some name, true⟩ net2 now2
        (generateImage env1 ⟨p1, e1, m1, some name, true⟩ net1 now1 st).profiles).profiles
        name =
      some ⟨"Character named " ++ name, extractCharacterTraits p1, now2⟩ ∧
    (generateImage env3 ⟨p3, e3, m3, some name2, true⟩ net3 now3
        (generateImage env2 ⟨p2, e2, m2, some name, true⟩ net2 now2
          (generateImage env1 ⟨p1, e1, m1, some name, true⟩ net1 now1 st).profiles).profiles).sentPrompt =
      extractCharacterTraits p3 ++ ". " ++ p3 ++
        ". Establish consistent character design for future reference." := by
  have hv1 : (generateImage env1 ⟨p1, e1, m1, some name, true⟩ net1 now1 st).profiles =
      alistSet st name ⟨"Character named " ++ name, extractCharacterTraits p1, now1⟩ := by
    rw [generateImage_profiles]
    exact congrArg Prod.snd (consistencyStep_fresh p1 name now1 st hne hst)
  have hget1 : alistGet (generateImage env1 ⟨p1, e1, m1, some name, true⟩
      net1 now1 st).profiles name =
      some ⟨"Character named " ++ name, extractCharacterTraits p1, now1⟩ := by
    rw [hv1]
    exact alistGet_alistSet_self _ _ _
  have hstep2 := consistencyStep_existing p2 name now2
    (generateImage env1 ⟨p1, e1, m1, some name, true⟩ net1 now1 st).profiles
    ⟨"Character named " ++ name, extractCharacterTraits p1, now1⟩ hne hget1
  have ha : (generateImage env2 ⟨p2, e2, m2, some name, true⟩ net2 now2
      (generateImage env1 ⟨p1, e1, m1, some name, true⟩ net1 now1 st).profiles).sentPrompt =
      "Character named " ++ name ++ ", " ++ extractCharacterTraits p1 ++ ". " ++ p2 ++
        ". Consistent character design, same facial features, same hair, same clothing style as previous appearances." := by
    rw [generateImage_sentPrompt]
    exact congrArg Prod.fst hstep2
  have hprof2 : (generateImage env2 ⟨p2, e2, m2, some name, true⟩ net2 now2
      (generateImage env1 ⟨p1, e1, m1, some name, true⟩ net1 now1 st).profiles).profiles =
      alistSet (generateImage env1 ⟨p1, e1, m1, some name, true⟩ net1 now1 st).profiles
        name ⟨"Character named " ++ name, extractCharacterTraits p1, now2⟩ := by
    rw [generateImage_profiles]
    exact congrArg Prod.snd hstep2
  have hget2none : alistGet (generateImage env2 ⟨p2, e2, m2, some name, true⟩ net2 now2
      (generateImage env1 ⟨p1, e1, m1, some name, true⟩ net1 now1 st).profiles).profiles
      name2 = none := by
    rw [hprof2, alistGet_alistSet_other _ _ _ _ hdiff, hv1,
      alistGet_alistSet_other _ _ _ _ hdiff]
    exact hst2
  refine ⟨ha, ?_, ?_, ?_, ?_⟩
  · exact substr_of_decomp ("Character named " ++ name ++ ", ")
      (extractCharacterTraits p1)
      (". " ++ p2 ++
        ". Consistent character design, same facial features, same hair, same clothing style as previous appearances.")
      (by rw [ha]; simp [String.append_assoc])
  · exact substr_of_decomp
      ("Character named " ++ name ++ ", " ++ extractCharacterTraits p1 ++
        ". " ++ p2 ++ ". Consistent character design, ")
      ("same facial features, same hair, same clothing style as previous appearances")
      (".")
      (by
        rw [ha, show
          (". Consistent character design, same facial features, same hair, same clothing style as previous appearances." : String) =
          ". Consistent character design, " ++
            "same facial features, same hair, same clothing style as previous appearances" ++
            "." from rfl]
        simp [String.append_assoc])
  · rw [hprof2]
    exact alistGet_alistSet_self _ _ _
  · rw [generateImage_sentPrompt]
    exact congrArg Prod.fst
      (consistencyStep_fresh p3 name2 now3 _ hne2 hget2none)

/-- Witness for C4 on two concrete characters: the second Yuki call's
outgoing prompt reuses Yuki's stored traits and carries the consistency
directive while only the timestamp is refreshed, and a following call for
Ren extracts traits from its own prompt. -/
theorem C4_witness :
    (generateImage ⟨false, false, false, false, false⟩
        ⟨"smiling", none, none, some "Yuki", true⟩ (fun _ _ => .okNoImage) 2
        (generateImage ⟨false, false, false, false, false⟩
          ⟨"young girl with long black hair", none, none, some "Yuki", true⟩
          (fun _ _ => .okNoImage) 1 []).profiles).sentPrompt =
      "Character named " ++ "Yuki" ++ ", " ++
        extractCharacterTraits "young girl with long black hair" ++ ". " ++
        "smiling" ++
        ". Consistent character design, same facial features, same hair, same clothing style as previous appearances." ∧
    alistGet (generateImage ⟨false, false, false, false, false⟩
        ⟨"smiling", none, none, some "Yuki", true⟩ (fun _ _ => .okNoImage) 2
        (generateImage ⟨false, false, false, false, false⟩
          ⟨"young girl with long black hair", none, none, some "Yuki", true⟩
          (fun _ _ => .okNoImage) 1 []).profiles).profiles "Yuki" =
      some ⟨"Character named " ++ "Yuki",
        extractCharacterTraits "young girl with long black hair", 2⟩ :=
  ⟨(C4_character_consistency ⟨false, false, false, false, false⟩
      ⟨false, false, false, false, false⟩ ⟨false, false, false, false, false⟩
      (fun _ _ => .okNoImage) (fun _ _ => .okNoImage) (fun _ _ => .okNoImage)
      1 2 3 [] "Yuki" "Ren" "young girl with long black hair" "smiling" "tall boy"
      none none none none none none
      (by decide) (by decide) (by decide) rfl rfl).1,
   (C4_character_consistency ⟨false, false, false, false, false⟩
      ⟨false, false, false, false, false⟩ ⟨false, false, false, false, false⟩
      (fun _ _ => .okNoImage) (fun _ _ => .okNoImage) (fun _ _ => .okNoImage)
      1 2 3 [] "Yuki" "Ren" "young girl with long black hair" "smiling" "tall boy"
      none none none none none none
      (by decide) (by decide) (by decide) rfl rfl).2.2.2.1⟩

end MangaGen
